import Mathlib

/-!
# LearnOpenGL, `Verson1/main.cpp`

A shallow embedding of the single translation unit of the repository: the
constants and literal arrays, the two GLSL stages, `processInput`,
`adjustWindowSize` and `main`.

* `float` literals of the source are kept as the decimal rationals they are
  written as (`0.5`, `-3.0`, ...); no arithmetic of the C++ code rounds them.
* Every call into GLFW, GLAD, OpenGL or `std::cout` is an element of `Call`,
  carrying the arguments of the source and, where the call returns something,
  the value it returned.  The values returned by the libraries are the fields
  of `Env`.
* `World` is the state the program can observe or change through those calls,
  plus the log of the calls issued so far.
* The render loop runs on a budget of loop-condition evaluations; `main`
  reports `Outcome.running` when the budget ends while the loop still runs.
-/

namespace LearnOpenGL

/-! ## Vectors and matrices (`glm::vec3`, `glm::vec4`, `glm::mat4`, GLSL types) -/

/-- Three floats: `glm::vec3`, GLSL `vec3`. -/
structure Vec3 where
  x : ℚ
  y : ℚ
  z : ℚ
deriving DecidableEq

/-- Four floats: `glm::vec4`, GLSL `vec4`. -/
structure Vec4 where
  x : ℚ
  y : ℚ
  z : ℚ
  w : ℚ
deriving DecidableEq

/-- Column-major 3x3 matrix: GLSL `mat3`. -/
structure Mat3 where
  c0 : Vec3
  c1 : Vec3
  c2 : Vec3
deriving DecidableEq

/-- Column-major 4x4 matrix: `glm::mat4`, GLSL `mat4`. -/
structure Mat4 where
  c0 : Vec4
  c1 : Vec4
  c2 : Vec4
  c3 : Vec4
deriving DecidableEq

/-- Componentwise sum of two `vec3`. -/
def Vec3.add (a b : Vec3) : Vec3 := ⟨a.x + b.x, a.y + b.y, a.z + b.z⟩

/-- Componentwise difference of two `vec3`. -/
def Vec3.sub (a b : Vec3) : Vec3 := ⟨a.x - b.x, a.y - b.y, a.z - b.z⟩

/-- Componentwise product of two `vec3` (GLSL `a * b`). -/
def Vec3.mul (a b : Vec3) : Vec3 := ⟨a.x * b.x, a.y * b.y, a.z * b.z⟩

/-- Scalar times `vec3` (GLSL `s * v`). -/
def Vec3.smul (s : ℚ) (a : Vec3) : Vec3 := ⟨s * a.x, s * a.y, s * a.z⟩

/-- Negated `vec3` (GLSL `-v`). -/
def Vec3.neg (a : Vec3) : Vec3 := ⟨-a.x, -a.y, -a.z⟩

/-- GLSL `dot` on `vec3`. -/
def Vec3.dot (a b : Vec3) : ℚ := a.x * b.x + a.y * b.y + a.z * b.z

/-- GLSL `reflect(I, N)`, defined by the language as `I - 2 * dot(N, I) * N`. -/
def reflect (I N : Vec3) : Vec3 := Vec3.sub I (Vec3.smul (2 * Vec3.dot N I) N)

/-- GLSL `vec4(v, w)`. -/
def vec4 (v : Vec3) (w : ℚ) : Vec4 := ⟨v.x, v.y, v.z, w⟩

/-- GLSL `vec3(v)` for a `vec4`: the first three components. -/
def vec3 (v : Vec4) : Vec3 := ⟨v.x, v.y, v.z⟩

/-- Scalar times `vec4`. -/
def Vec4.smul (s : ℚ) (a : Vec4) : Vec4 := ⟨s * a.x, s * a.y, s * a.z, s * a.w⟩

/-- Componentwise sum of two `vec4`. -/
def Vec4.add (a b : Vec4) : Vec4 := ⟨a.x + b.x, a.y + b.y, a.z + b.z, a.w + b.w⟩

/-- Matrix times column vector (GLSL `M * v`). -/
def Mat4.mulVec (m : Mat4) (v : Vec4) : Vec4 :=
  Vec4.add (Vec4.add (Vec4.smul v.x m.c0) (Vec4.smul v.y m.c1))
    (Vec4.add (Vec4.smul v.z m.c2) (Vec4.smul v.w m.c3))

/-- Matrix product (GLSL `A * B`): column `j` of the product is `A * B[j]`. -/
def Mat4.mul (a b : Mat4) : Mat4 :=
  ⟨a.mulVec b.c0, a.mulVec b.c1, a.mulVec b.c2, a.mulVec b.c3⟩

/-- GLSL `transpose` on `mat4`. -/
def Mat4.transpose (m : Mat4) : Mat4 :=
  ⟨⟨m.c0.x, m.c1.x, m.c2.x, m.c3.x⟩, ⟨m.c0.y, m.c1.y, m.c2.y, m.c3.y⟩,
   ⟨m.c0.z, m.c1.z, m.c2.z, m.c3.z⟩, ⟨m.c0.w, m.c1.w, m.c2.w, m.c3.w⟩⟩

/-- GLSL `mat3(m)` for a `mat4`: the upper-left 3x3 block. -/
def mat3 (m : Mat4) : Mat3 := ⟨vec3 m.c0, vec3 m.c1, vec3 m.c2⟩

/-- Matrix times column vector on `mat3`. -/
def Mat3.mulVec (m : Mat3) (v : Vec3) : Vec3 :=
  Vec3.add (Vec3.add (Vec3.smul v.x m.c0) (Vec3.smul v.y m.c1)) (Vec3.smul v.z m.c2)

/-- The constructor `glm::mat4(s)`: `s` on the diagonal, zero elsewhere. -/
def Mat4.diag (s : ℚ) : Mat4 :=
  ⟨⟨s, 0, 0, 0⟩, ⟨0, s, 0, 0⟩, ⟨0, 0, s, 0⟩, ⟨0, 0, 0, s⟩⟩

/-! ## Constants of the translation unit -/

/-- Source: `const unsigned int WindowWidth = 800;`. -/
def WindowWidth : Nat := 800

/-- Source: `const unsigned int WindowHeight = 600;`. -/
def WindowHeight : Nat := 600

/-- Source: `const unsigned int InfoLength = 512;`. -/
def InfoLength : Nat := 512

/-- Source: `const glm::vec4 ClearColor = glm::vec4(0.2f, 0.3f, 0.3f, 1.0f);`. -/
def ClearColor : Vec4 := ⟨0.2, 0.3, 0.3, 1.0⟩

/-- Size in bytes of a `float` (`sizeof(float)` on the platforms OpenGL runs on). -/
def sizeofFloat : Nat := 4

/-- Size in bytes of an `unsigned int`. -/
def sizeofUnsignedInt : Nat := 4

/-- Source: the text of `VertexShaderSource` up to its terminating NUL. -/
def VertexShaderSource : String :=
  "#version 330 core\n" ++
  "layout (location = 0) in vec3 vPos;\n" ++
  "layout (location = 1) in vec3 vColor;\n" ++
  "layout (location = 2) in vec3 vNormal;\n" ++
  "out vec3 Color;\n" ++
  "out vec3 Normal;\n" ++
  "out vec3 FragPos;\n" ++
  "uniform mat4 Model;\n" ++
  "uniform mat4 View;\n" ++
  "uniform mat4 Projection;\n" ++
  "void main()\n" ++
  "\x7b\n" ++
  "   FragPos = vec3(Model * vec4(vPos, 1.0f));\n" ++
  "   gl_Position = Projection * View * vec4(FragPos, 1.0f);\n" ++
  "   Color = vColor;\n" ++
  "   Normal = mat3(transpose(inverse(Model))) * vNormal;\n" ++
  "\x7d"

/-- Source: the text of `FragmentShaderSource` up to its terminating NUL. -/
def FragmentShaderSource : String :=
  "#version 330 core\n" ++
  "in vec3 Color;\n" ++
  "in vec3 Normal;\n" ++
  "in vec3 FragPos;\n" ++
  "out vec4 FragColor;\n" ++
  "uniform vec3 Ambient;\n" ++
  "uniform vec3 Diffuse;\n" ++
  "uniform vec3 Specular;\n" ++
  "uniform float Shininess;\n" ++
  "uniform vec3 ViewPos;\n" ++
  "uniform vec3 LightColor;\n" ++
  "void main()\n" ++
  "\x7b\n" ++
  "   vec3 LightDir = vec3(0.0f, 0.0f, 1.0f);\n" ++
  "\tvec3 NormalDir = normalize(Normal);\n" ++
  "   vec3 DiffuseColor = max(dot(LightDir, NormalDir), 0.0f) * LightColor * Diffuse;\n" ++
  "   vec3 ReflectDir = reflect(-LightDir, NormalDir);\n" ++
  "   vec3 ViewDir = normalize(ViewPos - FragPos);\n" ++
  "   vec3 SpecularColor = pow(max(dot(ViewDir, ReflectDir), 0.0f), Shininess) * LightColor * Specular;\n" ++
  "   vec3 AmbientColor = Ambient * LightColor;\n" ++
  "   vec3 FinalColor = (DiffuseColor + SpecularColor + AmbientColor) * Color;\n" ++
  "   FragColor = vec4(FinalColor, 1.0f);\n" ++
  "\x7d\n"

/-- Source: `float Vertices[]` in `main`, rows of position, color, normal. -/
def Vertices : List ℚ := [
   0.5,  0.5, -3.0,   1.0, 0.0, 0.0,   0.0, 0.0, 1.0,
   0.5, -0.5, -3.0,   0.0, 1.0, 0.0,   0.0, 0.0, 1.0,
  -0.5, -0.5, -3.0,   0.0, 0.0, 1.0,   0.0, 0.0, 1.0,
  -0.5,  0.5, -3.0,   1.0, 1.0, 0.0,   0.0, 0.0, 1.0]

/-- Source: `unsigned int Indices[]` in `main`. -/
def Indices : List Nat := [
  0, 1, 2,
  0, 3, 2]

/-- Source: `sizeof(Vertices)`, the byte size handed to `glBufferData`. -/
def sizeofVertices : Nat := Vertices.length * sizeofFloat

/-- Source: `sizeof(Indices)`, the byte size handed to `glBufferData`. -/
def sizeofIndices : Nat := Indices.length * sizeofUnsignedInt

/-- Source: `sizeof(Indices) / sizeof(unsigned int)`, the count of `glDrawElements`. -/
def drawCount : Nat := sizeofIndices / sizeofUnsignedInt

/-! ## The library interface: symbolic constants, calls, environment -/

/-- The OpenGL symbolic constants the model names. -/
inductive GLenum where
  | GL_VERTEX_SHADER
  | GL_FRAGMENT_SHADER
  | GL_COMPILE_STATUS
  | GL_LINK_STATUS
  | GL_ARRAY_BUFFER
  | GL_ELEMENT_ARRAY_BUFFER
  | GL_STATIC_DRAW
  | GL_FLOAT
  | GL_UNSIGNED_INT
  | GL_TRIANGLES
  | GL_COLOR_BUFFER_BIT
  | GL_CULL_FACE
  | GL_DEPTH_TEST
deriving DecidableEq

/-- The GLFW window hints the source sets. -/
inductive GLFWhint where
  | GLFW_CONTEXT_VERSION_MAJOR
  | GLFW_CONTEXT_VERSION_MINOR
  | GLFW_OPENGL_PROFILE
  | GLFW_OPENGL_FORWARD_COMPAT
deriving DecidableEq

/-- The values the source passes to `glfwWindowHint`. -/
inductive HintValue where
  | int (n : Int)
  | GLFW_OPENGL_CORE_PROFILE
  | GL_TRUE
deriving DecidableEq

/-- The keys the source asks about. -/
inductive GLFWkey where
  | GLFW_KEY_ESCAPE
deriving DecidableEq

/-- Header constant `GLFW_TRUE`. -/
def GLFW_TRUE : Int := 1

/-- Header constant `GLFW_PRESS`, the value of `glfwGetKey` for a key that is
down (`GLFW_RELEASE`, zero, otherwise). -/
def GLFW_PRESS : Int := 1

/-- Header constant `GL_FALSE`, the failure value of a compile or link status. -/
def GL_FALSE : Int := 0

/-- What `glBufferData` uploads: the floats of `Vertices` or the indices of `Indices`. -/
inductive BufferData where
  | floats (data : List ℚ)
  | uints (data : List Nat)
deriving DecidableEq

/-- The first `bytes` bytes of the data handed to `glBufferData`. -/
def BufferData.take (bytes : Nat) : BufferData → BufferData
  | .floats data => .floats (data.take (bytes / sizeofFloat))
  | .uints data => .uints (data.take (bytes / sizeofUnsignedInt))

/-- The value of a uniform variable. -/
inductive UniformValue where
  | mat4 (m : Mat4)
  | vec3 (v : Vec3)
  | float (f : ℚ)
deriving DecidableEq

/-- One call into GLFW, GLAD, OpenGL or `std::cout`, with the arguments of the
source; a trailing `result`, `status`, `log`, `location` or `flag` argument is
what the library handed back. -/
inductive Call where
  | glfwInit
  | glfwWindowHint (hint : GLFWhint) (value : HintValue)
  | glfwCreateWindow (width height : Nat) (title : String) (created : Bool)
  | glfwTerminate
  | glfwMakeContextCurrent
  | glfwSetFramebufferSizeCallback
  | gladLoadGLLoader (result : Int)
  | cout (text : String)
  | coutInfoLog (log : String)
  | glCreateShader (type : GLenum) (result : Nat)
  | glShaderSource (shader : Nat) (count : Nat) (source : String)
  | glCompileShader (shader : Nat)
  | glGetShaderiv (shader : Nat) (pname : GLenum) (status : Int)
  | glGetShaderInfoLog (shader : Nat) (maxLength : Nat) (log : String)
  | glCreateProgram (result : Nat)
  | glAttachShader (program shader : Nat)
  | glLinkProgram (program : Nat)
  | glGetProgramiv (program : Nat) (pname : GLenum) (status : Int)
  | glGetProgramInfoLog (program : Nat) (maxLength : Nat) (log : String)
  | glDeleteShader (shader : Nat)
  | glGenVertexArrays (n : Nat) (result : Nat)
  | glGenBuffers (n : Nat) (result : Nat)
  | glBindVertexArray (array : Nat)
  | glBindBuffer (target : GLenum) (buffer : Nat)
  | glBufferData (target : GLenum) (size : Nat) (data : BufferData) (usage : GLenum)
  | glVertexAttribPointer (index size : Nat) (type : GLenum) (normalized : Bool)
      (stride offset : Nat)
  | glEnableVertexAttribArray (index : Nat)
  | glUseProgram (program : Nat)
  | glGetUniformLocation (program : Nat) (name : String) (location : Int)
  | glUniformMatrix4fv (location : Int) (count : Nat) (transpose : Bool) (value : Mat4)
  | glUniform3fv (location : Int) (count : Nat) (value : Vec3)
  | glUniform1f (location : Int) (value : ℚ)
  | glfwWindowShouldClose (flag : Bool)
  | glfwGetKey (key : GLFWkey) (result : Int)
  | glfwSetWindowShouldClose (value : Bool)
  | glClearColor (r g b a : ℚ)
  | glClear (mask : GLenum)
  | glDrawElements (mode : GLenum) (count : Nat) (type : GLenum) (offset : Nat)
  | glfwSwapBuffers
  | glfwPollEvents
  | glDeleteVertexArrays (n : Nat) (array : Nat)
  | glDeleteBuffers (n : Nat) (buffer : Nat)
  | glDeleteProgram (program : Nat)
  | glViewport (x y width height : Int)
  | glEnable (cap : GLenum)

/-- What the window system can report to the window while `glfwPollEvents`
runs: a new framebuffer size, or the user asking to close the window. -/
inductive WindowEvent where
  | framebufferSize (width height : Int)
  | closeRequested
deriving DecidableEq

/-- Everything the libraries and the outside world decide in one run. -/
structure Env where
  /-- Build configuration: whether `__APPLE__` is defined. -/
  apple : Bool
  /-- Whether `glfwCreateWindow` returned a window (not `NULL`). -/
  windowCreated : Bool
  /-- The `int` returned by `gladLoadGLLoader`. -/
  gladLoaded : Int
  /-- Name returned by `glCreateShader(GL_VERTEX_SHADER)`. -/
  VertexShader : Nat
  /-- Value `glGetShaderiv` stores in `IsSuccess` for the vertex shader. -/
  vertexCompileStatus : Int
  /-- Content of `InfoLog` after `glGetShaderInfoLog` on the vertex shader. -/
  vertexInfoLog : String
  /-- Name returned by `glCreateShader(GL_FRAGMENT_SHADER)`. -/
  FragmentShader : Nat
  /-- Value `glGetShaderiv` stores in `IsSuccess` for the fragment shader. -/
  fragmentCompileStatus : Int
  /-- Content of `InfoLog` after `glGetShaderInfoLog` on the fragment shader. -/
  fragmentInfoLog : String
  /-- Name returned by `glCreateProgram`. -/
  ShaderProgram : Nat
  /-- Value `glGetProgramiv` stores in `IsSuccess` for the program. -/
  linkStatus : Int
  /-- Content of `InfoLog` after `glGetProgramInfoLog`. -/
  programInfoLog : String
  /-- Name stored in `VAO` by `glGenVertexArrays`. -/
  VAO : Nat
  /-- Name stored in `VBO` by `glGenBuffers`. -/
  VBO : Nat
  /-- Name stored in `EBO` by `glGenBuffers`. -/
  EBO : Nat
  /-- Value of `glGetUniformLocation(ShaderProgram, name)`. -/
  uniformLocation : String → Int
  /-- Value of `glm::perspective(glm::radians(FOV), (float)WindowWidth / WindowHeight,
  ZNear, ZFar)`. -/
  Projection : Mat4
  /-- Value of `glfwGetKey(vWindow, GLFW_KEY_ESCAPE)` in loop iteration `i`. -/
  escapeKey : Nat → Int
  /-- The window events delivered by `glfwPollEvents` in loop iteration `i`. -/
  events : Nat → List WindowEvent

/-! ## State -/

/-- Viewport rectangle. -/
structure Viewport where
  x : Int
  y : Int
  width : Int
  height : Int
deriving DecidableEq

/-- One generic vertex attribute array as recorded by `glVertexAttribPointer`;
`buffer` is the buffer bound to `GL_ARRAY_BUFFER` at the time of the call. -/
structure VertexAttrib where
  index : Nat
  size : Nat
  type : GLenum
  normalized : Bool
  stride : Nat
  offset : Nat
  buffer : Nat
deriving DecidableEq

/-- State of a vertex array object. -/
structure VertexArray where
  elementBuffer : Nat
  attribs : List VertexAttrib
  enabled : List Nat
deriving DecidableEq

/-- The OpenGL context state the calls of the program read or write. -/
structure GLState where
  viewport : Viewport
  clearColor : Vec4
  currentProgram : Nat
  uniforms : List (Int × UniformValue)
  vertexArray : Nat
  arrayBuffer : Nat
  vertexArrays : List (Nat × VertexArray)
  buffers : List (Nat × BufferData)
  enabled : List GLenum
deriving DecidableEq

/-- The state of the run: the context state, the window, and the log of calls. -/
structure World where
  gl : GLState
  /-- The close flag of the window. -/
  shouldClose : Bool
  /-- Whether `adjustWindowSize` is installed as the framebuffer-size callback. -/
  framebufferSizeCallback : Bool
  /-- Every call issued so far, oldest first. -/
  calls : List Call

/-- The state before `main` runs: nothing bound, nothing enabled, nothing stored. -/
def World.initial : World :=
  { gl := { viewport := ⟨0, 0, 0, 0⟩, clearColor := ⟨0, 0, 0, 0⟩, currentProgram := 0,
            uniforms := [], vertexArray := 0, arrayBuffer := 0, vertexArrays := [],
            buffers := [], enabled := [] },
    shouldClose := false, framebufferSizeCallback := false, calls := [] }

/-- Store `v` under key `k`, replacing an older entry. -/
def store {α β : Type} [DecidableEq α] (k : α) (v : β) (m : List (α × β)) : List (α × β) :=
  (k, v) :: m.filter (fun e => !decide (e.1 = k))

/-- Remove key `k`. -/
def discard {α β : Type} [DecidableEq α] (k : α) (m : List (α × β)) : List (α × β) :=
  m.filter (fun e => !decide (e.1 = k))

/-- The vertex array object bound now; a name bound for the first time is an
object with nothing attached. -/
def GLState.boundArray (g : GLState) : VertexArray :=
  (g.vertexArrays.lookup g.vertexArray).getD ⟨0, [], []⟩

/-- Replace the state of the bound vertex array object; without one bound
(name 0, core profile) the call has no effect. -/
def GLState.setBoundArray (g : GLState) (a : VertexArray) : GLState :=
  if g.vertexArray = 0 then g else { g with vertexArrays := store g.vertexArray a g.vertexArrays }

/-- A uniform write: location `-1` is silently ignored, any other location
takes the value. -/
def GLState.setUniform (g : GLState) (location : Int) (v : UniformValue) : GLState :=
  if location = -1 then g else { g with uniforms := store location v g.uniforms }

/-- The effect of an OpenGL call on the context state, as OpenGL defines it
for a call it accepts; the error paths of OpenGL are not part of the model. -/
def GLState.apply (g : GLState) : Call → GLState
  | .glViewport x y width height => { g with viewport := ⟨x, y, width, height⟩ }
  | .glClearColor r gr b a => { g with clearColor := ⟨r, gr, b, a⟩ }
  | .glUseProgram program => { g with currentProgram := program }
  | .glUniformMatrix4fv location _ _ value => g.setUniform location (.mat4 value)
  | .glUniform3fv location _ value => g.setUniform location (.vec3 value)
  | .glUniform1f location value => g.setUniform location (.float value)
  | .glBindVertexArray array => { g with vertexArray := array }
  | .glBindBuffer target buffer =>
      if target = .GL_ARRAY_BUFFER then { g with arrayBuffer := buffer }
      else if target = .GL_ELEMENT_ARRAY_BUFFER then
        g.setBoundArray { g.boundArray with elementBuffer := buffer }
      else g
  | .glBufferData target size data _ =>
      let bound := if target = .GL_ARRAY_BUFFER then g.arrayBuffer
        else if target = .GL_ELEMENT_ARRAY_BUFFER then g.boundArray.elementBuffer else 0
      if bound = 0 then g else { g with buffers := store bound (data.take size) g.buffers }
  | .glVertexAttribPointer index size type normalized stride offset =>
      g.setBoundArray { g.boundArray with
        attribs := ⟨index, size, type, normalized, stride, offset, g.arrayBuffer⟩ ::
          g.boundArray.attribs.filter (fun a => !decide (a.index = index)) }
  | .glEnableVertexAttribArray index =>
      g.setBoundArray { g.boundArray with enabled := index :: g.boundArray.enabled }
  | .glEnable cap => { g with enabled := cap :: g.enabled }
  | .glDeleteBuffers _ buffer =>
      { g with buffers := discard buffer g.buffers,
               arrayBuffer := if g.arrayBuffer = buffer then 0 else g.arrayBuffer }
  | .glDeleteVertexArrays _ array =>
      { g with vertexArrays := discard array g.vertexArrays,
               vertexArray := if g.vertexArray = array then 0 else g.vertexArray }
  | _ => g

/-- The effect of a call on the whole state, the log apart. -/
def World.apply (w : World) (c : Call) : World :=
  match c with
  | .glfwCreateWindow _ _ _ created =>
      if created then { w with shouldClose := false } else w
  | .glfwSetFramebufferSizeCallback => { w with framebufferSizeCallback := true }
  | .glfwSetWindowShouldClose value => { w with shouldClose := value }
  | c => { w with gl := w.gl.apply c }

/-- Issue one call: apply its effect and log it. -/
def step (c : Call) (w : World) : World :=
  { w.apply c with calls := w.calls ++ [c] }

/-- Issue a straight-line sequence of calls. -/
def run (cs : List Call) (w : World) : World :=
  cs.foldl (fun w c => step c w) w

/-! ## What a draw call reads -/

/-- The inputs of the vertex shader, at locations 0, 1 and 2. -/
structure VertexInputs where
  vPos : Vec3
  vColor : Vec3
  vNormal : Vec3
deriving DecidableEq

/-- Three fetched floats as a `vec3`. -/
def toVec3 : List ℚ → Option Vec3
  | [x, y, z] => some ⟨x, y, z⟩
  | _ => none

/-- Byte offset at which attribute array `a` holds vertex `v`. -/
def VertexAttrib.byteOffset (a : VertexAttrib) (v : Nat) : Nat :=
  a.offset + v * a.stride

/-- The floats fetched for attribute array `a` and vertex `v`: `a.size` floats
at `a.byteOffset v` of the data store of the buffer the array was set up with.
Nothing when that buffer has no float store, the type is not `GL_FLOAT`, or the
read is misaligned or leaves the store. -/
def GLState.fetch (g : GLState) (a : VertexAttrib) (v : Nat) : Option (List ℚ) :=
  match g.buffers.lookup a.buffer with
  | some (.floats data) =>
      if a.type = .GL_FLOAT ∧ a.byteOffset v % sizeofFloat = 0 ∧
          a.byteOffset v / sizeofFloat + a.size ≤ data.length then
        some ((data.drop (a.byteOffset v / sizeofFloat)).take a.size)
      else none
  | _ => none

/-- The value the vertex shader receives at `location` for vertex `v`: the
fetch through the attribute array of that index of the bound vertex array
object, when that array is enabled. -/
def GLState.attributeAt (g : GLState) (location v : Nat) : Option Vec3 :=
  if location ∈ g.boundArray.enabled then
    (g.boundArray.attribs.find? (fun a => a.index == location)).bind
      (fun a => (g.fetch a v).bind toVec3)
  else none

/-- The inputs of the vertex shader for vertex `v`: `vPos` from location 0,
`vColor` from location 1, `vNormal` from location 2. -/
def GLState.vertexInputs (g : GLState) (v : Nat) : Option VertexInputs :=
  match g.attributeAt 0 v, g.attributeAt 1 v, g.attributeAt 2 v with
  | some vPos, some vColor, some vNormal => some ⟨vPos, vColor, vNormal⟩
  | _, _, _ => none

/-- The indices `glDrawElements(_, count, type, offset)` reads: `count` indices
at byte `offset` of the data store of the element buffer of the bound vertex
array object.  Nothing when that buffer has no index store, the type is not
`GL_UNSIGNED_INT`, or the read is misaligned or leaves the store. -/
def GLState.elements (g : GLState) (count : Nat) (type : GLenum) (offset : Nat) :
    Option (List Nat) :=
  match g.buffers.lookup g.boundArray.elementBuffer with
  | some (.uints data) =>
      if type = .GL_UNSIGNED_INT ∧ offset % sizeofUnsignedInt = 0 ∧
          offset / sizeofUnsignedInt + count ≤ data.length then
        some ((data.drop (offset / sizeofUnsignedInt)).take count)
      else none
  | _ => none

/-- All the values of a list, when none is missing. -/
def collect {α : Type} : List (Option α) → Option (List α)
  | [] => some []
  | none :: _ => none
  | some a :: rest => (collect rest).map (fun as => a :: as)

/-- The vertices an indexed draw feeds to the vertex shader, in index order;
nothing when an index or an attribute cannot be read. -/
def GLState.drawElements (g : GLState) (count : Nat) (type : GLenum) (offset : Nat) :
    Option (List VertexInputs) :=
  (g.elements count type offset).bind (fun indices => collect (indices.map g.vertexInputs))

/-- What each `glDrawElements` call of a sequence of calls feeds to the vertex
shader, when the sequence is issued from state `g`. -/
def drawsOf : List Call → GLState → List (Option (List VertexInputs))
  | [], _ => []
  | .glDrawElements mode count type offset :: rest, g =>
      g.drawElements count type offset ::
        drawsOf rest (g.apply (.glDrawElements mode count type offset))
  | c :: rest, g => drawsOf rest (g.apply c)

/-! ## The program -/

/-- Source lines 60-67: library initialisation and the window hints; the last
hint is compiled in only under `__APPLE__`. -/
def hintCalls (env : Env) : List Call :=
  [.glfwInit,
   .glfwWindowHint .GLFW_CONTEXT_VERSION_MAJOR (.int 3),
   .glfwWindowHint .GLFW_CONTEXT_VERSION_MINOR (.int 3),
   .glfwWindowHint .GLFW_OPENGL_PROFILE .GLFW_OPENGL_CORE_PROFILE] ++
  (if env.apple then [.glfwWindowHint .GLFW_OPENGL_FORWARD_COMPAT .GL_TRUE] else [])

/-- Source lines 85-96: create and compile the vertex shader, log a failure. -/
def vertexShaderCalls (env : Env) : List Call :=
  [.glCreateShader .GL_VERTEX_SHADER env.VertexShader,
   .glShaderSource env.VertexShader 1 VertexShaderSource,
   .glCompileShader env.VertexShader,
   .glGetShaderiv env.VertexShader .GL_COMPILE_STATUS env.vertexCompileStatus] ++
  (if env.vertexCompileStatus = 0 then
    [.glGetShaderInfoLog env.VertexShader InfoLength env.vertexInfoLog,
     .cout "ERROR::SHADER::VERTEX::COMPILATION_FAILED\n",
     .coutInfoLog env.vertexInfoLog,
     .cout "\n"]
   else [])

/-- Source lines 98-107: create and compile the fragment shader, log a failure. -/
def fragmentShaderCalls (env : Env) : List Call :=
  [.glCreateShader .GL_FRAGMENT_SHADER env.FragmentShader,
   .glShaderSource env.FragmentShader 1 FragmentShaderSource,
   .glCompileShader env.FragmentShader,
   .glGetShaderiv env.FragmentShader .GL_COMPILE_STATUS env.fragmentCompileStatus] ++
  (if env.fragmentCompileStatus = 0 then
    [.glGetShaderInfoLog env.FragmentShader InfoLength env.fragmentInfoLog,
     .cout "ERROR::SHADER::FRAGMENT::COMPILATION_FAILED\n",
     .coutInfoLog env.fragmentInfoLog,
     .cout "\n"]
   else [])

/-- Source lines 109-121: link the program, log a failure, delete the shaders. -/
def programCalls (env : Env) : List Call :=
  [.glCreateProgram env.ShaderProgram,
   .glAttachShader env.ShaderProgram env.VertexShader,
   .glAttachShader env.ShaderProgram env.FragmentShader,
   .glLinkProgram env.ShaderProgram,
   .glGetProgramiv env.ShaderProgram .GL_LINK_STATUS env.linkStatus] ++
  (if env.linkStatus = 0 then
    [.glGetProgramInfoLog env.ShaderProgram InfoLength env.programInfoLog,
     .cout "ERROR::SHADER::PROGRAM::LINKING_FAILED\n",
     .coutInfoLog env.programInfoLog,
     .cout "\n"]
   else []) ++
  [.glDeleteShader env.VertexShader,
   .glDeleteShader env.FragmentShader]

/-- Source lines 135-158: create the vertex array and the two buffers, upload
`Vertices` and `Indices`, describe the three attributes. -/
def geometryCalls (env : Env) : List Call :=
  [.glGenVertexArrays 1 env.VAO,
   .glGenBuffers 1 env.VBO,
   .glGenBuffers 1 env.EBO,
   .glBindVertexArray env.VAO,
   .glBindBuffer .GL_ARRAY_BUFFER env.VBO,
   .glBufferData .GL_ARRAY_BUFFER sizeofVertices (.floats Vertices) .GL_STATIC_DRAW,
   .glBindBuffer .GL_ELEMENT_ARRAY_BUFFER env.EBO,
   .glBufferData .GL_ELEMENT_ARRAY_BUFFER sizeofIndices (.uints Indices) .GL_STATIC_DRAW,
   .glVertexAttribPointer 0 3 .GL_FLOAT false (9 * sizeofFloat) 0,
   .glEnableVertexAttribArray 0,
   .glVertexAttribPointer 1 3 .GL_FLOAT false (9 * sizeofFloat) (3 * sizeofFloat),
   .glEnableVertexAttribArray 1,
   .glVertexAttribPointer 2 3 .GL_FLOAT false (9 * sizeofFloat) (6 * sizeofFloat),
   .glEnableVertexAttribArray 2,
   .glBindBuffer .GL_ARRAY_BUFFER 0,
   .glBindVertexArray 0]

/-- Source lines 160-181: make the program current, then for each uniform
look its name up and write its value. -/
def uniformCalls (env : Env) : List Call :=
  [.glUseProgram env.ShaderProgram,
   .glGetUniformLocation env.ShaderProgram "Model" (env.uniformLocation "Model"),
   .glUniformMatrix4fv (env.uniformLocation "Model") 1 false (Mat4.diag 1.0),
   .glGetUniformLocation env.ShaderProgram "View" (env.uniformLocation "View"),
   .glUniformMatrix4fv (env.uniformLocation "View") 1 false (Mat4.diag 1.0),
   .glGetUniformLocation env.ShaderProgram "Projection" (env.uniformLocation "Projection"),
   .glUniformMatrix4fv (env.uniformLocation "Projection") 1 false env.Projection,
   .glGetUniformLocation env.ShaderProgram "Diffuse" (env.uniformLocation "Diffuse"),
   .glUniform3fv (env.uniformLocation "Diffuse") 1 ⟨0.8, 0.8, 0.8⟩,
   .glGetUniformLocation env.ShaderProgram "Specular" (env.uniformLocation "Specular"),
   .glUniform3fv (env.uniformLocation "Specular") 1 ⟨0.1, 0.1, 0.1⟩,
   .glGetUniformLocation env.ShaderProgram "Ambient" (env.uniformLocation "Ambient"),
   .glUniform3fv (env.uniformLocation "Ambient") 1 ⟨0.3, 0.3, 0.3⟩,
   .glGetUniformLocation env.ShaderProgram "ViewPos" (env.uniformLocation "ViewPos"),
   .glUniform3fv (env.uniformLocation "ViewPos") 1 ⟨0.0, 0.0, 0.0⟩,
   .glGetUniformLocation env.ShaderProgram "LightColor" (env.uniformLocation "LightColor"),
   .glUniform3fv (env.uniformLocation "LightColor") 1 ⟨1.0, 1.0, 1.0⟩,
   .glGetUniformLocation env.ShaderProgram "Shininess" (env.uniformLocation "Shininess"),
   .glUniform1f (env.uniformLocation "Shininess") 100.0]

/-- Source lines 85-181: everything between the GLAD check and the render loop. -/
def setupCalls (env : Env) : List Call :=
  vertexShaderCalls env ++ fragmentShaderCalls env ++ programCalls env ++
    geometryCalls env ++ uniformCalls env

/-- Source lines 207-213, `processInput`: `key` is what
`glfwGetKey(vWindow, GLFW_KEY_ESCAPE)` returns. -/
def processInput (key : Int) (w : World) : World :=
  let w := step (.glfwGetKey .GLFW_KEY_ESCAPE key) w
  if key = GLFW_TRUE then step (.glfwSetWindowShouldClose true) w else w

/-- Source lines 215-218, `adjustWindowSize`. -/
def adjustWindowSize (vWidth vHeight : Int) (w : World) : World :=
  step (.glViewport 0 0 vWidth vHeight) w

/-- What GLFW does with one window event: a framebuffer-size event calls the
installed callback, a close request sets the close flag of the window. -/
def deliver (w : World) (e : WindowEvent) : World :=
  match e with
  | .framebufferSize width height =>
      if w.framebufferSizeCallback then adjustWindowSize width height w else w
  | .closeRequested => { w with shouldClose := true }

/-- The call `glfwPollEvents()` with the events it delivers. -/
def pollEvents (events : List WindowEvent) (w : World) : World :=
  events.foldl deliver (step .glfwPollEvents w)

/-- Source lines 187-194: clear, bind, draw, present. -/
def drawCalls (env : Env) : List Call :=
  [.glClearColor ClearColor.x ClearColor.y ClearColor.z ClearColor.w,
   .glClear .GL_COLOR_BUFFER_BIT,
   .glUseProgram env.ShaderProgram,
   .glBindVertexArray env.VAO,
   .glDrawElements .GL_TRIANGLES drawCount .GL_UNSIGNED_INT 0,
   .glfwSwapBuffers]

/-- Source lines 185-195: the body of the render loop, iteration `i`. -/
def loopBody (env : Env) (i : Nat) (w : World) : World :=
  pollEvents (env.events i) (run (drawCalls env) (processInput (env.escapeKey i) w))

/-- Source lines 183-196: the render loop from iteration `i` on.  `budget`
bounds the number of evaluations of the loop condition; the second component
says whether the loop was left (`true`) or the budget ended first (`false`). -/
def renderLoop (env : Env) : Nat → Nat → World → World × Bool
  | 0, _, w => (w, false)
  | budget + 1, i, w =>
      if w.shouldClose then (step (.glfwWindowShouldClose true) w, true)
      else renderLoop env budget (i + 1) (loopBody env i (step (.glfwWindowShouldClose false) w))

/-- Source lines 198-203: delete the GPU objects, then terminate GLFW. -/
def teardownCalls (env : Env) : List Call :=
  [.glDeleteVertexArrays 1 env.VAO,
   .glDeleteBuffers 1 env.VBO,
   .glDeleteBuffers 1 env.EBO,
   .glDeleteProgram env.ShaderProgram,
   .glfwTerminate]

/-- How a run ends: `main` returned `code`, or the budget of loop-condition
evaluations ended while the render loop was still running. -/
inductive Outcome where
  | exited (code : Int) (w : World)
  | running (w : World)

/-- The state at the end of the run (or where the budget ended). -/
def Outcome.world : Outcome → World
  | .exited _ w => w
  | .running w => w

/-- The value `main` returned, when it returned. -/
def Outcome.code : Outcome → Option Int
  | .exited code _ => some code
  | .running _ => none

/-- Source lines 60-69: the state after `glfwCreateWindow`. -/
def afterCreateWindow (env : Env) : World :=
  step (.glfwCreateWindow WindowWidth WindowHeight "Learn OpenGL" env.windowCreated)
    (run (hintCalls env) World.initial)

/-- Source lines 76-79: the state after `gladLoadGLLoader`, on the path where
the window exists. -/
def afterLoader (env : Env) : World :=
  run [.glfwMakeContextCurrent, .glfwSetFramebufferSizeCallback,
       .gladLoadGLLoader env.gladLoaded] (afterCreateWindow env)

/-- Source lines 85-181: the state in which the render loop is entered. -/
def startup (env : Env) : World :=
  run (setupCalls env) (afterLoader env)

/-- Source lines 58-205, `main`. -/
def main (env : Env) (budget : Nat) : Outcome :=
  if env.windowCreated = false then
    .exited (-1)
      (run [.cout "failed to create GLFW window.\n", .glfwTerminate] (afterCreateWindow env))
  else if env.gladLoaded = 0 then
    .exited (-1) (step (.cout "failed to initialize GLAD.\n") (afterLoader env))
  else
    match renderLoop env budget 0 (startup env) with
    | (w, true) => .exited 0 (run (teardownCalls env) w)
    | (w, false) => .running w

/-! ## The two GLSL stages -/

/-- The GLSL built-in functions whose results depend on the precision of the
implementation; the stages below take them as given. -/
structure Builtins where
  /-- GLSL `inverse` on `mat4`. -/
  inverse : Mat4 → Mat4
  /-- GLSL `normalize` on `vec3`. -/
  normalize : Vec3 → Vec3
  /-- GLSL `pow` on `float`. -/
  pow : ℚ → ℚ → ℚ

/-- The `out` variables of the vertex shader, which are the `in` variables of
the fragment shader. -/
structure Varyings where
  Color : Vec3
  Normal : Vec3
  FragPos : Vec3
deriving DecidableEq

/-- The uniforms of the vertex shader. -/
structure VertexUniforms where
  Model : Mat4
  View : Mat4
  Projection : Mat4

/-- The uniforms of the fragment shader. -/
structure FragmentUniforms where
  Ambient : Vec3
  Diffuse : Vec3
  Specular : Vec3
  Shininess : ℚ
  ViewPos : Vec3
  LightColor : Vec3

/-- Source lines 26-32: `main` of `VertexShaderSource`; the result is
`gl_Position` and the `out` variables. -/
def vertexMain (b : Builtins) (u : VertexUniforms) (i : VertexInputs) : Vec4 × Varyings :=
  let FragPos := vec3 (u.Model.mulVec (vec4 i.vPos 1.0))
  let gl_Position := (u.Projection.mul u.View).mulVec (vec4 FragPos 1.0)
  let Color := i.vColor
  let Normal := (mat3 (Mat4.transpose (b.inverse u.Model))).mulVec i.vNormal
  (gl_Position, ⟨Color, Normal, FragPos⟩)

/-- Source lines 47-49: `DiffuseColor` of the fragment shader. -/
def DiffuseColor (b : Builtins) (u : FragmentUniforms) (v : Varyings) : Vec3 :=
  let LightDir : Vec3 := ⟨0.0, 0.0, 1.0⟩
  let NormalDir := b.normalize v.Normal
  Vec3.mul (Vec3.smul (max (Vec3.dot LightDir NormalDir) 0.0) u.LightColor) u.Diffuse

/-- Source lines 47-52: `SpecularColor` of the fragment shader. -/
def SpecularColor (b : Builtins) (u : FragmentUniforms) (v : Varyings) : Vec3 :=
  let LightDir : Vec3 := ⟨0.0, 0.0, 1.0⟩
  let NormalDir := b.normalize v.Normal
  let ReflectDir := reflect (Vec3.neg LightDir) NormalDir
  let ViewDir := b.normalize (Vec3.sub u.ViewPos v.FragPos)
  Vec3.mul (Vec3.smul (b.pow (max (Vec3.dot ViewDir ReflectDir) 0.0) u.Shininess) u.LightColor)
    u.Specular

/-- Source line 53: `AmbientColor` of the fragment shader. -/
def AmbientColor (u : FragmentUniforms) : Vec3 :=
  Vec3.mul u.Ambient u.LightColor

/-- Source lines 45-56: `main` of `FragmentShaderSource`; the result is `FragColor`. -/
def fragmentMain (b : Builtins) (u : FragmentUniforms) (v : Varyings) : Vec4 :=
  let FinalColor :=
    Vec3.mul (Vec3.add (Vec3.add (DiffuseColor b u v) (SpecularColor b u v)) (AmbientColor u))
      v.Color
  vec4 FinalColor 1.0

/-! ## Vocabulary of the properties -/

/-- The `layout (location = n) in vec3 name;` declarations of `VertexShaderSource`. -/
def VertexShaderInputs : List (Nat × String) :=
  [(0, "vPos"), (1, "vColor"), (2, "vNormal")]

/-- Whether `t` occurs in `s` as a contiguous block. -/
def containsSub : List Char → List Char → Bool
  | [], t => t.isEmpty
  | c :: cs, t => t.isPrefixOf (c :: cs) || containsSub cs t

/-- Everything the program wrote to `std::cout`, in order: the string
literals and the contents of `InfoLog`. -/
def stdout (cs : List Call) : List Char :=
  cs.flatMap (fun c => match c with
    | .cout text => text.toList
    | .coutInfoLog log => log.toList
    | _ => [])

/-- The contents of `InfoLog` the program wrote to `std::cout`, in order. -/
def infoLogs (cs : List Call) : List String :=
  cs.filterMap (fun c => match c with
    | .coutInfoLog log => some log
    | _ => none)

/-- Whether what the program printed contains `marker`. -/
def printsMessageWith (cs : List Call) (marker : String) : Bool :=
  containsSub (stdout cs) marker.toList

/-- The vertex array object `main` sets up: the index buffer attached, the
three attribute arrays reading from the vertex buffer, all three enabled
(entries in the order OpenGL records them here, newest first). -/
def geometryArray (env : Env) : VertexArray :=
  { elementBuffer := env.EBO,
    attribs := [⟨2, 3, .GL_FLOAT, false, 9 * sizeofFloat, 6 * sizeofFloat, env.VBO⟩,
                ⟨1, 3, .GL_FLOAT, false, 9 * sizeofFloat, 3 * sizeofFloat, env.VBO⟩,
                ⟨0, 3, .GL_FLOAT, false, 9 * sizeofFloat, 0, env.VBO⟩],
    enabled := [2, 1, 0] }

/-- The state in which the geometry of `main` is in place: the vertex buffer
holds `Vertices`, the index buffer holds `Indices`, and the vertex array object
is `geometryArray`. -/
def GeometryReady (env : Env) (g : GLState) : Prop :=
  g.buffers.lookup env.VBO = some (.floats Vertices) ∧
  g.buffers.lookup env.EBO = some (.uints Indices) ∧
  g.vertexArrays.lookup env.VAO = some (geometryArray env)

/-- The four vertices of the quad as the rows of `Vertices` list them:
position, color, normal. -/
def quad : List VertexInputs :=
  [⟨⟨0.5, 0.5, -3.0⟩, ⟨1.0, 0.0, 0.0⟩, ⟨0.0, 0.0, 1.0⟩⟩,
   ⟨⟨0.5, -0.5, -3.0⟩, ⟨0.0, 1.0, 0.0⟩, ⟨0.0, 0.0, 1.0⟩⟩,
   ⟨⟨-0.5, -0.5, -3.0⟩, ⟨0.0, 0.0, 1.0⟩, ⟨0.0, 0.0, 1.0⟩⟩,
   ⟨⟨-0.5, 0.5, -3.0⟩, ⟨1.0, 1.0, 0.0⟩, ⟨0.0, 0.0, 1.0⟩⟩]

/-- The three floats of `Vertices` starting at float index `k`. -/
def floatsAt (k : Nat) : Vec3 :=
  ⟨Vertices.getD k 0, Vertices.getD (k + 1) 0, Vertices.getD (k + 2) 0⟩

/-- The position of vertex `v`: attribute 0, the first three floats of row `v`. -/
def position (v : Nat) : Vec3 := floatsAt (9 * v)

/-- The normal of vertex `v`: attribute 2, the last three floats of row `v`. -/
def normal (v : Nat) : Vec3 := floatsAt (9 * v + 6)

/-- `GL_TRIANGLES` assembly: consecutive triples of indices. -/
def assembleTriangles : List Nat → List (Nat × Nat × Nat)
  | a :: b :: c :: rest => (a, b, c) :: assembleTriangles rest
  | _ => []

/-- The closed triangle with corners `a`, `b`, `c` in the xy-plane: the points
that are a convex combination of the corners. -/
def InTriangle (a b c : Vec3) (p : ℝ × ℝ) : Prop :=
  ∃ u v w : ℝ, 0 ≤ u ∧ 0 ≤ v ∧ 0 ≤ w ∧ u + v + w = 1 ∧
    p.1 = u * a.x + v * b.x + w * c.x ∧ p.2 = u * a.y + v * b.y + w * c.y

/-- The closed triangle drawn for an index triple. -/
def InIndexTriangle (t : Nat × Nat × Nat) (p : ℝ × ℝ) : Prop :=
  InTriangle (position t.1) (position t.2.1) (position t.2.2) p

/-- The closed segment from `a` to `b` in the xy-plane. -/
def OnSegment (a b : Vec3) (p : ℝ × ℝ) : Prop :=
  ∃ t : ℝ, 0 ≤ t ∧ t ≤ 1 ∧ p.1 = t * a.x + (1 - t) * b.x ∧ p.2 = t * a.y + (1 - t) * b.y

/-- Signed area of the triangle `a`, `b`, `c` in the xy-plane: positive when
the corners run counter-clockwise seen from +z. -/
def signedArea (a b c : Vec3) : ℚ :=
  ((b.x - a.x) * (c.y - a.y) - (c.x - a.x) * (b.y - a.y)) / 2

/-- Signed area of the triangle drawn for an index triple. -/
def indexTriangleArea (t : Nat × Nat × Nat) : ℚ :=
  signedArea (position t.1) (position t.2.1) (position t.2.2)

/-- Cross product of two `vec3`. -/
def Vec3.cross (a b : Vec3) : Vec3 :=
  ⟨a.y * b.z - a.z * b.y, a.z * b.x - a.x * b.z, a.x * b.y - a.y * b.x⟩

/-- The geometric normal the winding of an index triple gives: the cross
product of its first two edges. -/
def windingNormal (t : Nat × Nat × Nat) : Vec3 :=
  Vec3.cross (Vec3.sub (position t.2.1) (position t.1))
    (Vec3.sub (position t.2.2) (position t.1))

/-- The triangles of an indexed draw that survive face culling.  Culling acts
only when `GL_CULL_FACE` is enabled; with the defaults `glFrontFace(GL_CCW)` and
`glCullFace(GL_BACK)` it then discards the triangles that are not
counter-clockwise. -/
def drawnTriangles (g : GLState) (indices : List Nat) : List (Nat × Nat × Nat) :=
  (assembleTriangles indices).filter
    (fun t => !(g.enabled.contains .GL_CULL_FACE) || decide (0 < indexTriangleArea t))

/-- Whether a call is `glEnable`. -/
def Call.isEnable : Call → Bool
  | .glEnable _ => true
  | _ => false

/-- Whether a call evaluates the loop condition. -/
def Call.isLoopCheck : Call → Bool
  | .glfwWindowShouldClose _ => true
  | _ => false

/-- Whether a call deletes a vertex array, a buffer or a program. -/
def Call.isDelete : Call → Bool
  | .glDeleteVertexArrays _ _ => true
  | .glDeleteBuffers _ _ => true
  | .glDeleteProgram _ => true
  | _ => false

/-- Whether a call is `glfwTerminate`. -/
def Call.isTerminate : Call → Bool
  | .glfwTerminate => true
  | _ => false

/-- Whether a call clears the close flag of the window. -/
def Call.clearsCloseFlag : Call → Bool
  | .glfwSetWindowShouldClose false => true
  | _ => false

/-- Whether a call is an OpenGL call (a `gl...` function), as opposed to a
GLFW, GLAD or `std::cout` call. -/
def Call.isGL : Call → Bool
  | .glfwInit => false
  | .glfwWindowHint _ _ => false
  | .glfwCreateWindow _ _ _ _ => false
  | .glfwTerminate => false
  | .glfwMakeContextCurrent => false
  | .glfwSetFramebufferSizeCallback => false
  | .gladLoadGLLoader _ => false
  | .cout _ => false
  | .coutInfoLog _ => false
  | .glfwWindowShouldClose _ => false
  | .glfwGetKey _ _ => false
  | .glfwSetWindowShouldClose _ => false
  | .glfwSwapBuffers => false
  | .glfwPollEvents => false
  | _ => true

/-- The calls the render loop issues: the loop condition, `processInput`,
the six calls of the body, `glfwPollEvents` and the `glViewport` of
`adjustWindowSize`. -/
def Call.inLoop : Call → Bool
  | .glfwWindowShouldClose _ => true
  | .glfwGetKey _ _ => true
  | .glfwSetWindowShouldClose true => true
  | .glClearColor _ _ _ _ => true
  | .glClear _ => true
  | .glUseProgram _ => true
  | .glBindVertexArray _ => true
  | .glDrawElements _ _ _ _ => true
  | .glfwSwapBuffers => true
  | .glfwPollEvents => true
  | .glViewport _ _ _ _ => true
  | _ => false

/-- The calls `main` issues before the render loop: every call of the
interface except those of the loop, of the teardown, and `glEnable`. -/
def Call.inStartup : Call → Bool
  | .glfwTerminate => false
  | .glfwWindowShouldClose _ => false
  | .glfwGetKey _ _ => false
  | .glfwSetWindowShouldClose _ => false
  | .glClearColor _ _ _ _ => false
  | .glClear _ => false
  | .glDrawElements _ _ _ _ => false
  | .glfwSwapBuffers => false
  | .glfwPollEvents => false
  | .glDeleteVertexArrays _ _ => false
  | .glDeleteBuffers _ _ => false
  | .glDeleteProgram _ => false
  | .glViewport _ _ _ _ => false
  | .glEnable _ => false
  | _ => true

/-- Whether iteration `i` of the render loop sets the close flag: the Escape
key is reported pressed, or a close request arrives with the events. -/
def closesIn (env : Env) (i : Nat) : Bool :=
  decide (env.escapeKey i = GLFW_TRUE) || (env.events i).contains .closeRequested

/-- The nine uniforms with the values the source gives them (lines 162-175). -/
def uniformValues (env : Env) : List (String × UniformValue) :=
  [("Model", .mat4 (Mat4.diag 1.0)),
   ("View", .mat4 (Mat4.diag 1.0)),
   ("Projection", .mat4 env.Projection),
   ("Diffuse", .vec3 ⟨0.8, 0.8, 0.8⟩),
   ("Specular", .vec3 ⟨0.1, 0.1, 0.1⟩),
   ("Ambient", .vec3 ⟨0.3, 0.3, 0.3⟩),
   ("ViewPos", .vec3 ⟨0.0, 0.0, 0.0⟩),
   ("LightColor", .vec3 ⟨1.0, 1.0, 1.0⟩),
   ("Shininess", .float 100.0)]

/-- The uniform a call writes: its location and value. -/
def Call.uniformWritten : Call → Option (Int × UniformValue)
  | .glUniformMatrix4fv location _ _ value => some (location, .mat4 value)
  | .glUniform3fv location _ value => some (location, .vec3 value)
  | .glUniform1f location value => some (location, .float value)
  | _ => none

/-- The uniform store after one write: location `-1` is ignored. -/
def writeUniform (m : List (Int × UniformValue)) (u : Int × UniformValue) :
    List (Int × UniformValue) :=
  if u.1 = -1 then m else store u.1 u.2 m

/-- The state the context reaches from its initial state through a sequence of calls. -/
def replay (cs : List Call) : GLState :=
  cs.foldl GLState.apply World.initial.gl

/-- The calls the framebuffer-size events of one `glfwPollEvents` cause:
`adjustWindowSize` runs once per event when it is installed. -/
def callbackCalls (installed : Bool) (events : List WindowEvent) : List Call :=
  events.filterMap (fun e => match e with
    | .framebufferSize width height =>
        if installed then some (.glViewport 0 0 width height) else none
    | .closeRequested => none)

/-- The calls of iteration `i` of the loop body, given whether the resize
callback is installed. -/
def bodyCalls (env : Env) (installed : Bool) (i : Nat) : List Call :=
  .glfwGetKey .GLFW_KEY_ESCAPE (env.escapeKey i) ::
    (if env.escapeKey i = GLFW_TRUE then [.glfwSetWindowShouldClose true] else []) ++
    drawCalls env ++ .glfwPollEvents :: callbackCalls installed (env.events i)

/-- The calls of the render loop from iteration `i` on, given the close flag
at its first loop-condition evaluation. -/
def loopCalls (env : Env) (installed : Bool) : Nat → Nat → Bool → List Call
  | 0, _, _ => []
  | _ + 1, _, true => [.glfwWindowShouldClose true]
  | budget + 1, i, false =>
      .glfwWindowShouldClose false :: bodyCalls env installed i ++
        loopCalls env installed budget (i + 1) (closesIn env i)

/-- The calls `main` issues before the render loop when the window and the
loader succeed. -/
def startupCalls (env : Env) : List Call :=
  hintCalls env ++
    [.glfwCreateWindow WindowWidth WindowHeight "Learn OpenGL" env.windowCreated,
     .glfwMakeContextCurrent, .glfwSetFramebufferSizeCallback,
     .gladLoadGLLoader env.gladLoaded] ++
    setupCalls env

/-- The names of the nine uniforms, in the order the source writes them. -/
def uniformNames : List String :=
  ["Model", "View", "Projection", "Diffuse", "Specular", "Ambient", "ViewPos", "LightColor",
   "Shininess"]

/-- A run used to instantiate the statements: every library call succeeds,
the uniforms sit at locations 0 to 8, a resize arrives in the first iteration
and Escape is pressed in the third. -/
def sampleEnv : Env :=
  { apple := false, windowCreated := true, gladLoaded := 1,
    VertexShader := 1, vertexCompileStatus := 1, vertexInfoLog := "",
    FragmentShader := 2, fragmentCompileStatus := 1, fragmentInfoLog := "",
    ShaderProgram := 3, linkStatus := 1, programInfoLog := "",
    VAO := 1, VBO := 1, EBO := 2,
    uniformLocation := fun name => uniformNames.indexOf name,
    Projection :=
      ⟨⟨1.810660, 0, 0, 0⟩, ⟨0, 2.414213, 0, 0⟩, ⟨0, 0, -1.002002, -1⟩, ⟨0, 0, -0.2002002, 0⟩⟩,
    escapeKey := fun i => if i = 2 then 1 else 0,
    events := fun i => if i = 0 then [.framebufferSize 1024 768] else [] }

/-- The run of `sampleEnv` with a vertex shader that fails to compile. -/
def failedVertexEnv : Env :=
  { sampleEnv with vertexCompileStatus := 0,
                   vertexInfoLog := "0(1) : error C0000: syntax error" }

/-- The run of `sampleEnv` with a vertex shader that fails to compile and a
driver log for it that speaks of linking. -/
def logNamesLinkEnv : Env :=
  { sampleEnv with vertexCompileStatus := 0,
                   vertexInfoLog := "error: no main; LINKING_FAILED" }

/-- The run of `sampleEnv` with a program that fails to link and a driver log
for it that speaks of compilation. -/
def logNamesCompileEnv : Env :=
  { sampleEnv with linkStatus := 0,
                   programInfoLog := "error: vertex shader COMPILATION_FAILED earlier" }

/-- The vertices the draw of `main` is to feed to the vertex shader: the rows
of the quad in the order of `Indices`. -/
def quadVertices : List VertexInputs :=
  [⟨⟨0.5, 0.5, -3.0⟩, ⟨1.0, 0.0, 0.0⟩, ⟨0.0, 0.0, 1.0⟩⟩,
   ⟨⟨0.5, -0.5, -3.0⟩, ⟨0.0, 1.0, 0.0⟩, ⟨0.0, 0.0, 1.0⟩⟩,
   ⟨⟨-0.5, -0.5, -3.0⟩, ⟨0.0, 0.0, 1.0⟩, ⟨0.0, 0.0, 1.0⟩⟩,
   ⟨⟨0.5, 0.5, -3.0⟩, ⟨1.0, 0.0, 0.0⟩, ⟨0.0, 0.0, 1.0⟩⟩,
   ⟨⟨-0.5, 0.5, -3.0⟩, ⟨1.0, 1.0, 0.0⟩, ⟨0.0, 0.0, 1.0⟩⟩,
   ⟨⟨-0.5, -0.5, -3.0⟩, ⟨0.0, 0.0, 1.0⟩, ⟨0.0, 0.0, 1.0⟩⟩]

/-- The uniforms of the vertex shader as `main` sets them (lines 162-165),
with the projection of `sampleEnv`. -/
def sampleTransforms : VertexUniforms :=
  ⟨Mat4.diag 1.0, Mat4.diag 1.0, sampleEnv.Projection⟩

/-- The uniforms of the fragment shader as `main` sets them (lines 170-175). -/
def programLighting : FragmentUniforms :=
  { Ambient := ⟨0.3, 0.3, 0.3⟩, Diffuse := ⟨0.8, 0.8, 0.8⟩, Specular := ⟨0.1, 0.1, 0.1⟩,
    Shininess := 100.0, ViewPos := ⟨0.0, 0.0, 0.0⟩, LightColor := ⟨1.0, 1.0, 1.0⟩ }

/-- The material of `main` under a light that is switched off. -/
def lightOff : FragmentUniforms :=
  { Ambient := ⟨0.3, 0.3, 0.3⟩, Diffuse := ⟨0.8, 0.8, 0.8⟩, Specular := ⟨0.1, 0.1, 0.1⟩,
    Shininess := 100.0, ViewPos := ⟨0.0, 0.0, 0.0⟩, LightColor := ⟨0.0, 0.0, 0.0⟩ }

/-- Vertex 0 of the quad: the first row of `Vertices`. -/
def vertex0 : VertexInputs :=
  ⟨⟨0.5, 0.5, -3.0⟩, ⟨1.0, 0.0, 0.0⟩, ⟨0.0, 0.0, 1.0⟩⟩

/-! ## The quad and its two triangles -/

theorem position_zero : position 0 = ⟨0.5, 0.5, -3.0⟩ := rfl

theorem position_one : position 1 = ⟨0.5, -0.5, -3.0⟩ := rfl

theorem position_two : position 2 = ⟨-0.5, -0.5, -3.0⟩ := rfl

theorem position_three : position 3 = ⟨-0.5, 0.5, -3.0⟩ := rfl

/-- The triangle of indices (0,1,2) is the half of the square below its diagonal. -/
theorem inTriangle_first (p : ℝ × ℝ) :
    InIndexTriangle (0, 1, 2) p ↔ (p.2 ≤ p.1 ∧ p.1 ≤ 1/2 ∧ -1/2 ≤ p.2) := by
  unfold InIndexTriangle InTriangle
  simp only [position_zero, position_one, position_two]
  constructor
  · rintro ⟨u, v, w, hu, hv, hw, hs, hx, hy⟩
    push_cast at hx hy
    refine ⟨?_, ?_, ?_⟩ <;> linarith
  · rintro ⟨h1, h2, h3⟩
    refine ⟨p.2 + 1/2, p.1 - p.2, 1/2 - p.1, ?_, ?_, ?_, ?_, ?_, ?_⟩ <;> push_cast <;> linarith

/-- The triangle of indices (0,3,2) is the half of the square above its diagonal. -/
theorem inTriangle_second (p : ℝ × ℝ) :
    InIndexTriangle (0, 3, 2) p ↔ (p.1 ≤ p.2 ∧ -1/2 ≤ p.1 ∧ p.2 ≤ 1/2) := by
  unfold InIndexTriangle InTriangle
  simp only [position_zero, position_three, position_two]
  constructor
  · rintro ⟨u, v, w, hu, hv, hw, hs, hx, hy⟩
    push_cast at hx hy
    refine ⟨?_, ?_, ?_⟩ <;> linarith
  · rintro ⟨h1, h2, h3⟩
    refine ⟨p.1 + 1/2, p.2 - p.1, 1/2 - p.2, ?_, ?_, ?_, ?_, ?_, ?_⟩ <;> push_cast <;> linarith

/-- The segment from vertex 0 to vertex 2 is the diagonal `x = y` of the square. -/
theorem onSegment_diagonal (p : ℝ × ℝ) :
    OnSegment (position 0) (position 2) p ↔ (p.1 = p.2 ∧ -1/2 ≤ p.1 ∧ p.1 ≤ 1/2) := by
  unfold OnSegment
  simp only [position_zero, position_two]
  constructor
  · rintro ⟨t, h0, h1, hx, hy⟩
    push_cast at hx hy
    refine ⟨?_, ?_, ?_⟩ <;> linarith
  · rintro ⟨h1, h2, h3⟩
    refine ⟨p.1 + 1/2, ?_, ?_, ?_, ?_⟩ <;> push_cast <;> linarith

/-- C1: the draw assembles `Indices` into the triangles (0,1,2) and (0,3,2);
all four vertices have z = -3.0; a point of the xy-plane lies in one of the two
closed triangles exactly when it lies in the closed square from (-0.5,-0.5) to
(0.5,0.5); and a point of both triangles lies on the segment from vertex 0
(0.5,0.5) to vertex 2 (-0.5,-0.5). -/
theorem quad_cover :
    assembleTriangles Indices = [(0, 1, 2), (0, 3, 2)] ∧
    (∀ v, v < 4 → (position v).z = -3.0) ∧
    (∀ p : ℝ × ℝ, (InIndexTriangle (0, 1, 2) p ∨ InIndexTriangle (0, 3, 2) p) ↔
      ((-0.5 : ℝ) ≤ p.1 ∧ p.1 ≤ 0.5 ∧ (-0.5 : ℝ) ≤ p.2 ∧ p.2 ≤ 0.5)) ∧
    (∀ p : ℝ × ℝ, InIndexTriangle (0, 1, 2) p → InIndexTriangle (0, 3, 2) p →
      OnSegment (position 0) (position 2) p) ∧
    position 0 = ⟨0.5, 0.5, -3.0⟩ ∧ position 2 = ⟨-0.5, -0.5, -3.0⟩ := by
  refine ⟨rfl, ?_, ?_, ?_, rfl, rfl⟩
  · intro v hv
    interval_cases v <;> rfl
  · intro p
    rw [inTriangle_first, inTriangle_second]
    norm_num
    constructor
    · rintro (⟨h1, h2, h3⟩ | ⟨h1, h2, h3⟩) <;> refine ⟨?_, ?_, ?_, ?_⟩ <;> linarith
    · rintro ⟨h1, h2, h3, h4⟩
      rcases le_total p.2 p.1 with h | h
      · exact Or.inl ⟨h, h2, h3⟩
      · exact Or.inr ⟨h, h1, h4⟩
  · intro p h1 h2
    rw [inTriangle_first] at h1
    rw [inTriangle_second] at h2
    rw [onSegment_diagonal]
    exact ⟨le_antisymm h2.1 h1.1, h2.2.1, h1.2.1⟩

/-! ## The log and the state of a run -/

@[simp]
theorem step_calls (c : Call) (w : World) : (step c w).calls = w.calls ++ [c] := rfl

theorem step_gl (c : Call) (w : World) : (step c w).gl = w.gl.apply c := by
  cases c <;> simp [step, World.apply, GLState.apply]
  split <;> rfl

@[simp]
theorem run_nil (w : World) : run [] w = w := rfl

@[simp]
theorem run_cons (c : Call) (cs : List Call) (w : World) :
    run (c :: cs) w = run cs (step c w) := rfl

theorem run_append (cs ds : List Call) (w : World) : run (cs ++ ds) w = run ds (run cs w) := by
  simp [run, List.foldl_append]

theorem run_calls (cs : List Call) (w : World) : (run cs w).calls = w.calls ++ cs := by
  induction cs generalizing w with
  | nil => simp
  | cons c cs ih => simp [ih]

theorem run_gl (cs : List Call) (w : World) : (run cs w).gl = cs.foldl GLState.apply w.gl := by
  induction cs generalizing w with
  | nil => simp
  | cons c cs ih => simp [ih, step_gl]

/-- The window state of a world: close flag and installed callback. -/
theorem run_drawCalls_window (env : Env) (w : World) :
    (run (drawCalls env) w).shouldClose = w.shouldClose ∧
    (run (drawCalls env) w).framebufferSizeCallback = w.framebufferSizeCallback := by
  simp [drawCalls, step, World.apply]

theorem processInput_calls (key : Int) (w : World) :
    (processInput key w).calls = w.calls ++ .glfwGetKey .GLFW_KEY_ESCAPE key ::
      (if key = GLFW_TRUE then [.glfwSetWindowShouldClose true] else []) := by
  unfold processInput
  split <;> simp

theorem processInput_gl (key : Int) (w : World) : (processInput key w).gl = w.gl := by
  unfold processInput
  split <;> simp [step, World.apply, GLState.apply]

theorem processInput_shouldClose (key : Int) (w : World) :
    (processInput key w).shouldClose = (w.shouldClose || decide (key = GLFW_TRUE)) := by
  unfold processInput
  split <;> simp [step, World.apply, *]

theorem processInput_callback (key : Int) (w : World) :
    (processInput key w).framebufferSizeCallback = w.framebufferSizeCallback := by
  unfold processInput
  split <;> simp [step, World.apply]

theorem deliver_callback (w : World) (e : WindowEvent) :
    (deliver w e).framebufferSizeCallback = w.framebufferSizeCallback := by
  cases e <;> simp [deliver, adjustWindowSize, step, World.apply]
  split <;> rfl

theorem foldl_deliver (events : List WindowEvent) (w : World) :
    (events.foldl deliver w).calls = w.calls ++ callbackCalls w.framebufferSizeCallback events ∧
    (events.foldl deliver w).gl =
      (callbackCalls w.framebufferSizeCallback events).foldl GLState.apply w.gl ∧
    (events.foldl deliver w).shouldClose = (w.shouldClose || events.contains .closeRequested) ∧
    (events.foldl deliver w).framebufferSizeCallback = w.framebufferSizeCallback := by
  induction events generalizing w with
  | nil => simp [callbackCalls]
  | cons e es ih =>
    rw [List.foldl_cons]
    obtain ⟨h1, h2, h3, h4⟩ := ih (deliver w e)
    rw [h1, h2, h3, h4, deliver_callback]
    cases e with
    | closeRequested => simp [deliver, callbackCalls]
    | framebufferSize width height =>
      cases hcb : w.framebufferSizeCallback <;>
        simp [deliver, callbackCalls, hcb, adjustWindowSize, step_gl, step, World.apply]

theorem loopBody_spec (env : Env) (i : Nat) (w : World) :
    (loopBody env i w).calls = w.calls ++ bodyCalls env w.framebufferSizeCallback i ∧
    (loopBody env i w).gl =
      (bodyCalls env w.framebufferSizeCallback i).foldl GLState.apply w.gl ∧
    (loopBody env i w).shouldClose = (w.shouldClose || closesIn env i) ∧
    (loopBody env i w).framebufferSizeCallback = w.framebufferSizeCallback := by
  unfold loopBody pollEvents
  obtain ⟨h1, h2, h3, h4⟩ := foldl_deliver (env.events i)
    (step .glfwPollEvents (run (drawCalls env) (processInput (env.escapeKey i) w)))
  have hw := run_drawCalls_window env (processInput (env.escapeKey i) w)
  have hcb : (step Call.glfwPollEvents (run (drawCalls env)
      (processInput (env.escapeKey i) w))).framebufferSizeCallback
      = w.framebufferSizeCallback := by
    show (run (drawCalls env) (processInput (env.escapeKey i) w)).framebufferSizeCallback = _
    rw [hw.2, processInput_callback]
  have hsc : (step Call.glfwPollEvents (run (drawCalls env)
      (processInput (env.escapeKey i) w))).shouldClose
      = (w.shouldClose || decide (env.escapeKey i = GLFW_TRUE)) := by
    show (run (drawCalls env) (processInput (env.escapeKey i) w)).shouldClose = _
    rw [hw.1, processInput_shouldClose]
  rw [h1, h2, h3, h4, hcb, hsc]
  refine ⟨?_, ?_, ?_, rfl⟩
  · simp [run_calls, processInput_calls, bodyCalls]
  · rw [step_gl, run_gl, processInput_gl]
    simp only [bodyCalls, List.foldl_append, List.foldl_cons]
    have : ∀ g : GLState, List.foldl GLState.apply (g.apply (.glfwGetKey .GLFW_KEY_ESCAPE
        (env.escapeKey i))) (if env.escapeKey i = GLFW_TRUE
          then [Call.glfwSetWindowShouldClose true] else []) = g := by
      intro g; split <;> rfl
    rw [this]
  · simp [closesIn, Bool.or_assoc]

theorem renderLoop_spec (env : Env) (budget i : Nat) (w : World) :
    (renderLoop env budget i w).1.calls =
      w.calls ++ loopCalls env w.framebufferSizeCallback budget i w.shouldClose ∧
    (renderLoop env budget i w).1.gl =
      (loopCalls env w.framebufferSizeCallback budget i w.shouldClose).foldl
        GLState.apply w.gl ∧
    (renderLoop env budget i w).1.framebufferSizeCallback = w.framebufferSizeCallback := by
  induction budget generalizing i w with
  | zero => simp [renderLoop, loopCalls]
  | succ b ih =>
    cases hsc : w.shouldClose with
    | true => simp [renderLoop, loopCalls, hsc, step_gl]; rfl
    | false =>
      simp only [renderLoop, hsc, loopCalls]
      obtain ⟨h1, h2, h3⟩ := ih (i + 1) (loopBody env i (step (.glfwWindowShouldClose false) w))
      obtain ⟨b1, b2, b3, b4⟩ := loopBody_spec env i (step (.glfwWindowShouldClose false) w)
      have hcb : (step (Call.glfwWindowShouldClose false) w).framebufferSizeCallback
          = w.framebufferSizeCallback := rfl
      have hs : (step (Call.glfwWindowShouldClose false) w).shouldClose = false := hsc
      simp only [Bool.false_eq_true, if_false]
      rw [h1, h2, h3, b1, b2, b3, b4, hcb, hs]
      refine ⟨?_, ?_, rfl⟩
      · simp
      · simp [step_gl, List.foldl_append]

/-- Whether the loop is left within the budget. -/
theorem renderLoop_left (env : Env) (budget i : Nat) (w : World) :
    (renderLoop env budget i w).2 = true ↔
      (0 < budget ∧ w.shouldClose = true) ∨ ∃ k, k + 1 < budget ∧ closesIn env (i + k) = true := by
  induction budget generalizing i w with
  | zero => simp [renderLoop]
  | succ b ih =>
    cases hsc : w.shouldClose with
    | true => simp [renderLoop, hsc]
    | false =>
      simp only [renderLoop, hsc, Bool.false_eq_true, if_false]
      rw [ih, (loopBody_spec env i _).2.2.1]
      have hs : (step (Call.glfwWindowShouldClose false) w).shouldClose = false := hsc
      rw [hs]
      simp only [Bool.false_or, and_false, false_or]
      constructor
      · rintro (⟨hb, hc⟩ | ⟨k, hk, hc⟩)
        · exact ⟨0, by omega, by simpa using hc⟩
        · exact ⟨k + 1, by omega, by rw [← hc]; congr 1; omega⟩
      · rintro ⟨k, hk, hc⟩
        rcases k with _ | k
        · exact Or.inl ⟨by omega, by simpa using hc⟩
        · exact Or.inr ⟨k, by omega, by rw [← hc]; congr 1; omega⟩



theorem startup_calls (env : Env) : (startup env).calls = startupCalls env := by
  simp [startup, afterLoader, afterCreateWindow, run_calls, startupCalls, World.initial]

theorem startup_gl (env : Env) : (startup env).gl = replay (startupCalls env) := by
  simp only [startup, afterLoader, afterCreateWindow, run_gl, step_gl, replay, startupCalls,
    List.foldl_append, List.foldl_cons, List.foldl_nil]

theorem callbackCalls_inLoop (installed : Bool) (events : List WindowEvent) :
    ∀ c ∈ callbackCalls installed events, c.inLoop = true := by
  intro c hc
  simp only [callbackCalls, List.mem_filterMap] at hc
  obtain ⟨e, -, he⟩ := hc
  cases e with
  | closeRequested => simp at he
  | framebufferSize width height =>
    cases installed <;> simp at he
    subst he; rfl

theorem bodyCalls_inLoop (env : Env) (installed : Bool) (i : Nat) :
    ∀ c ∈ bodyCalls env installed i, c.inLoop = true := by
  intro c hc
  simp only [bodyCalls, drawCalls, List.mem_append, List.mem_cons] at hc
  rcases hc with ((rfl | hc) | hc) | rfl | hc
  · rfl
  · split_ifs at hc
    · obtain rfl := List.mem_singleton.mp hc
      rfl
    · simp at hc
  · simp only [List.not_mem_nil, or_false] at hc
    rcases hc with rfl | rfl | rfl | rfl | rfl | rfl <;> rfl
  · rfl
  · exact callbackCalls_inLoop _ _ c hc

theorem loopCalls_inLoop (env : Env) (installed : Bool) (budget i : Nat) (flag : Bool) :
    ∀ c ∈ loopCalls env installed budget i flag, c.inLoop = true := by
  induction budget generalizing i flag with
  | zero => simp [loopCalls]
  | succ b ih =>
    cases flag with
    | true => simp [loopCalls, Call.inLoop]
    | false =>
      intro c hc
      simp only [loopCalls, List.mem_cons, List.mem_append] at hc
      rcases hc with (rfl | hc) | hc
      · rfl
      · exact bodyCalls_inLoop _ _ _ c hc
      · exact ih _ _ c hc

theorem startupCalls_inStartup (env : Env) : ∀ c ∈ startupCalls env, c.inStartup = true := by
  rw [← List.all_eq_true]
  simp only [startupCalls, hintCalls, setupCalls, vertexShaderCalls, fragmentShaderCalls,
    programCalls, geometryCalls, uniformCalls, List.all_append, List.all_cons, List.all_nil]
  split_ifs <;> rfl

theorem startup_window (env : Env) (hw : env.windowCreated = true) :
    (startup env).shouldClose = false ∧ (startup env).framebufferSizeCallback = true := by
  simp only [startup, afterLoader, afterCreateWindow, hintCalls, setupCalls, vertexShaderCalls,
    fragmentShaderCalls, programCalls, geometryCalls, uniformCalls, run_append, hw]
  split_ifs <;> exact ⟨rfl, rfl⟩

theorem main_spec (env : Env) (budget : Nat) (hw : env.windowCreated = true)
    (hg : env.gladLoaded ≠ 0) :
    (main env budget).world.calls =
      startupCalls env ++ loopCalls env true budget 0 false ++
        (if (renderLoop env budget 0 (startup env)).2 then teardownCalls env else []) ∧
    (main env budget).code =
      (if (renderLoop env budget 0 (startup env)).2 then some 0 else none) ∧
    (main env budget).world.gl = replay (main env budget).world.calls := by
  obtain ⟨h1, h2, -⟩ := renderLoop_spec env budget 0 (startup env)
  rw [(startup_window env hw).1, (startup_window env hw).2, startup_calls] at h1
  rw [(startup_window env hw).1, (startup_window env hw).2, startup_gl] at h2
  unfold main
  rw [if_neg (by simp [hw]), if_neg hg]
  rcases hr : renderLoop env budget 0 (startup env) with ⟨w, b⟩
  rw [hr] at h1 h2
  simp only at h1 h2
  cases b with
  | false => simp [Outcome.world, Outcome.code, h1, h2, replay, List.foldl_append]
  | true =>
    simp [Outcome.world, Outcome.code, run_calls, run_gl, h1, h2, replay, List.foldl_append]

theorem renderLoop_closed (env : Env) (budget i : Nat) (w : World) (h : w.shouldClose = true) :
    renderLoop env (budget + 1) i w = (step (.glfwWindowShouldClose true) w, true) := by
  simp [renderLoop, h]

theorem teardownCalls_not_clear (env : Env) : ∀ c ∈ teardownCalls env, c.clearsCloseFlag = false := by
  intro c hc
  simp only [teardownCalls, List.mem_cons, List.mem_singleton, List.not_mem_nil, or_false] at hc
  rcases hc with rfl | rfl | rfl | rfl | rfl <;> rfl

theorem hintCalls_inStartup (env : Env) : ∀ c ∈ hintCalls env, c.inStartup = true := by
  rw [← List.all_eq_true]
  simp only [hintCalls, List.all_append, List.all_cons, List.all_nil]
  split_ifs <;> rfl

/-- The log of a run that ends at the failed window creation. -/
theorem main_calls_noWindow (env : Env) (budget : Nat) (hw : env.windowCreated = false) :
    (main env budget).world.calls = hintCalls env ++
      [.glfwCreateWindow WindowWidth WindowHeight "Learn OpenGL" false,
       .cout "failed to create GLFW window.\n", .glfwTerminate] := by
  simp [main, hw, Outcome.world, run_calls, afterCreateWindow, World.initial]

/-- The log of a run that ends at the failed loader. -/
theorem main_calls_noLoader (env : Env) (budget : Nat) (hw : env.windowCreated = true)
    (hg : env.gladLoaded = 0) :
    (main env budget).world.calls = hintCalls env ++
      [.glfwCreateWindow WindowWidth WindowHeight "Learn OpenGL" true,
       .glfwMakeContextCurrent, .glfwSetFramebufferSizeCallback, .gladLoadGLLoader 0,
       .cout "failed to initialize GLAD.\n"] := by
  simp [main, hw, hg, Outcome.world, run_calls, afterLoader, afterCreateWindow, World.initial]

/-- Every call of a run is a startup call, a loop call or a teardown call. -/
theorem main_calls_cases (env : Env) (budget : Nat) :
    ∀ c ∈ (main env budget).world.calls,
      c.inStartup = true ∨ c.inLoop = true ∨ c ∈ teardownCalls env := by
  intro c hc
  by_cases hw : env.windowCreated = false
  · rw [main_calls_noWindow env budget hw] at hc
    simp only [List.mem_append, List.mem_cons, List.mem_singleton, List.not_mem_nil,
      or_false] at hc
    rcases hc with hc | rfl | rfl | rfl
    · exact Or.inl (hintCalls_inStartup env c hc)
    · exact Or.inl rfl
    · exact Or.inl rfl
    · exact Or.inr (Or.inr (by simp [teardownCalls]))
  · have hw : env.windowCreated = true := by simpa using hw
    by_cases hg : env.gladLoaded = 0
    · rw [main_calls_noLoader env budget hw hg] at hc
      simp only [List.mem_append, List.mem_cons, List.mem_singleton, List.not_mem_nil,
        or_false] at hc
      rcases hc with hc | rfl | rfl | rfl | rfl | rfl
      · exact Or.inl (hintCalls_inStartup env c hc)
      all_goals exact Or.inl rfl
    · rw [(main_spec env budget hw hg).1] at hc
      simp only [List.mem_append] at hc
      rcases hc with (hc | hc) | hc
      · exact Or.inl (startupCalls_inStartup env c hc)
      · exact Or.inr (Or.inl (loopCalls_inLoop env _ _ _ _ c hc))
      · split_ifs at hc
        · exact Or.inr (Or.inr hc)
        · simp at hc

theorem main_never_clears (env : Env) (budget : Nat) :
    ∀ c ∈ (main env budget).world.calls, c.clearsCloseFlag = false := by
  intro c hc
  rcases main_calls_cases env budget c hc with h | h | h
  · cases c <;> first | rfl | simp [Call.inStartup] at h
  · cases c <;> first | rfl | simp [Call.inLoop] at h
    rename_i v
    cases v <;> first | rfl | simp [Call.inLoop] at h
  · exact teardownCalls_not_clear env c h

/-- C4: in an iteration of the render loop in which `glfwGetKey` reports the
Escape key pressed, `processInput` sets the close flag, the flag is still set
when the iteration ends, and the next evaluation of the loop condition leaves
the loop without running the body again (the state it returns is the state at
the end of that iteration plus the loop-condition call).  The close flag, once
set, survives every iteration, and no run of `main` issues a call that clears
it. -/
theorem escape_closes (env : Env) (i : Nat) (w : World) (h : env.escapeKey i = GLFW_PRESS) :
    (processInput (env.escapeKey i) w).shouldClose = true ∧
    (loopBody env i w).shouldClose = true ∧
    (∀ budget, renderLoop env (budget + 1) (i + 1) (loopBody env i w) =
      (step (.glfwWindowShouldClose true) (loopBody env i w), true)) ∧
    (∀ j (v : World), v.shouldClose = true → (loopBody env j v).shouldClose = true) ∧
    (∀ budget, ∀ c ∈ (main env budget).world.calls, c.clearsCloseFlag = false) := by
  have h1 : (loopBody env i w).shouldClose = true := by
    rw [(loopBody_spec env i w).2.2.1]
    simp [closesIn, h, GLFW_PRESS, GLFW_TRUE]
  refine ⟨?_, h1, fun budget => renderLoop_closed env budget (i + 1) _ h1, ?_, ?_⟩
  · rw [processInput_shouldClose]; simp [h, GLFW_PRESS, GLFW_TRUE]
  · intro j v hv
    rw [(loopBody_spec env j v).2.2.1, hv]; rfl
  · exact fun budget => main_never_clears env budget

/-- C4 at `sampleEnv`: Escape is reported in iteration 2, the flag is set when
that iteration ends and the next loop-condition evaluation leaves the loop. -/
theorem escape_closes_witness :
    sampleEnv.escapeKey 2 = GLFW_PRESS ∧
    (loopBody sampleEnv 2 (startup sampleEnv)).shouldClose = true ∧
    (renderLoop sampleEnv 1 3 (loopBody sampleEnv 2 (startup sampleEnv))).2 = true :=
  ⟨rfl, (escape_closes sampleEnv 2 (startup sampleEnv) rfl).2.1,
    by rw [(escape_closes sampleEnv 2 (startup sampleEnv) rfl).2.2.1 0]⟩

/-- C5: for every width and height, `adjustWindowSize` sets the viewport to
(0, 0, width, height) and leaves the rest of the context state as it was (the
uniforms, the current program, the buffers and the vertex arrays among it), as
well as the close flag and the installed callback; the one call it issues is
`glViewport(0, 0, width, height)`.  It is what a framebuffer-size event runs
once the callback is installed, and `main` has installed it when the render
loop starts. -/
theorem resize_sets_viewport (vWidth vHeight : Int) (w : World) :
    (adjustWindowSize vWidth vHeight w).gl.viewport = ⟨0, 0, vWidth, vHeight⟩ ∧
    (adjustWindowSize vWidth vHeight w).gl =
      { w.gl with viewport := ⟨0, 0, vWidth, vHeight⟩ } ∧
    (adjustWindowSize vWidth vHeight w).gl.uniforms = w.gl.uniforms ∧
    (adjustWindowSize vWidth vHeight w).gl.currentProgram = w.gl.currentProgram ∧
    (adjustWindowSize vWidth vHeight w).gl.buffers = w.gl.buffers ∧
    (adjustWindowSize vWidth vHeight w).gl.vertexArrays = w.gl.vertexArrays ∧
    (adjustWindowSize vWidth vHeight w).shouldClose = w.shouldClose ∧
    (adjustWindowSize vWidth vHeight w).framebufferSizeCallback = w.framebufferSizeCallback ∧
    (adjustWindowSize vWidth vHeight w).calls = w.calls ++ [.glViewport 0 0 vWidth vHeight] ∧
    (w.framebufferSizeCallback = true →
      deliver w (.framebufferSize vWidth vHeight) = adjustWindowSize vWidth vHeight w) ∧
    (∀ env : Env, env.windowCreated = true → (startup env).framebufferSizeCallback = true) :=
  ⟨rfl, rfl, rfl, rfl, rfl, rfl, rfl, rfl, rfl, fun h => by simp [deliver, h],
    fun env hw => (startup_window env hw).2⟩

/-! ## Exit codes -/

/-- C2: `main` returns -1 when `glfwCreateWindow` returns `NULL`; it returns -1
when the window exists and `gladLoadGLLoader` returns zero; otherwise, if some
iteration `k` sets the close flag, every budget above `k + 1` makes `main`
return 0, `main` never returns anything but 0, and it does not return at all
when no iteration sets the flag.  Replacing the two compile statuses and the
link status by any other values leaves the returned value unchanged. -/
theorem exit_codes (env : Env) :
    (env.windowCreated = false → ∀ budget, (main env budget).code = some (-1)) ∧
    (env.windowCreated = true → env.gladLoaded = 0 →
      ∀ budget, (main env budget).code = some (-1)) ∧
    (env.windowCreated = true → env.gladLoaded ≠ 0 →
      (∀ k, closesIn env k = true → ∀ budget, k + 1 < budget →
        (main env budget).code = some 0) ∧
      (∀ budget code, (main env budget).code = some code → code = 0) ∧
      ((∀ k, closesIn env k = false) → ∀ budget, (main env budget).code = none)) ∧
    (∀ (vs fs ls : Int) (budget : Nat),
      (main { env with vertexCompileStatus := vs, fragmentCompileStatus := fs,
                       linkStatus := ls } budget).code = (main env budget).code) := by
  have key : ∀ (e : Env) (budget : Nat), e.windowCreated = true → e.gladLoaded ≠ 0 →
      ((∃ k, k + 1 < budget ∧ closesIn e k = true) → (main e budget).code = some 0) ∧
      ((¬ ∃ k, k + 1 < budget ∧ closesIn e k = true) → (main e budget).code = none) := by
    intro e budget hw hg
    rw [(main_spec e budget hw hg).2.1]
    have h := renderLoop_left e budget 0 (startup e)
    rw [(startup_window e hw).1] at h
    simp only [Bool.false_eq_true, and_false, false_or, Nat.zero_add] at h
    exact ⟨fun hc => if_pos (h.mpr hc), fun hc => if_neg (fun hh => hc (h.mp hh))⟩
  refine ⟨?_, ?_, ?_, ?_⟩
  · intro hw budget
    simp [main, hw, Outcome.code]
  · intro hw hg budget
    simp [main, hw, hg, Outcome.code]
  · intro hw hg
    refine ⟨?_, ?_, ?_⟩
    · intro k hk budget hb
      exact (key env budget hw hg).1 ⟨k, hb, hk⟩
    · intro budget code h
      by_cases hc : ∃ k, k + 1 < budget ∧ closesIn env k = true
      · rw [(key env budget hw hg).1 hc] at h
        exact (Option.some.inj h).symm
      · rw [(key env budget hw hg).2 hc] at h
        exact absurd h (by simp)
    · intro hn budget
      refine (key env budget hw hg).2 ?_
      rintro ⟨k, -, hk⟩
      rw [hn k] at hk
      exact Bool.false_ne_true hk
  · intro vs fs ls budget
    by_cases hw : env.windowCreated = false
    · simp [main, hw, Outcome.code]
    · have hw : env.windowCreated = true := by simpa using hw
      by_cases hg : env.gladLoaded = 0
      · simp [main, hw, hg, Outcome.code]
      · by_cases hc : ∃ k, k + 1 < budget ∧ closesIn env k = true
        · rw [(key env budget hw hg).1 hc]
          exact (key { env with vertexCompileStatus := vs, fragmentCompileStatus := fs,
                                linkStatus := ls } budget hw hg).1 hc
        · rw [(key env budget hw hg).2 hc]
          exact (key { env with vertexCompileStatus := vs, fragmentCompileStatus := fs,
                                linkStatus := ls } budget hw hg).2 hc

/-- C2 at `sampleEnv` and at its variants with a failed window, a failed
loader, and three failed shader statuses. -/
theorem exit_codes_witness :
    (main sampleEnv 4).code = some 0 ∧
    (main { sampleEnv with windowCreated := false } 0).code = some (-1) ∧
    (main { sampleEnv with gladLoaded := 0 } 0).code = some (-1) ∧
    (main { sampleEnv with vertexCompileStatus := 0, fragmentCompileStatus := 0,
                           linkStatus := 0 } 4).code = (main sampleEnv 4).code :=
  ⟨(exit_codes sampleEnv).2.2.1 rfl (by decide) |>.1 2 rfl 4 (by decide),
   (exit_codes { sampleEnv with windowCreated := false }).1 rfl 0,
   (exit_codes { sampleEnv with gladLoaded := 0 }).2.1 rfl rfl 0,
   (exit_codes sampleEnv).2.2.2 0 0 0 4⟩

/-! ## Teardown -/

/-- A list that ends in its only element satisfying `p` splits at such an
element in one way only. -/
theorem split_at_last {α : Type} (p : α → Bool) (ys : List α) (t : α)
    (hy : ∀ c ∈ ys, p c = false) (before after : List α) (s : α) (hs : p s = true)
    (h : ys ++ [t] = before ++ s :: after) : after = [] ∧ before = ys := by
  rcases List.eq_nil_or_concat after with rfl | ⟨as, a, rfl⟩
  · exact ⟨rfl, (List.append_inj' h rfl).1.symm⟩
  · have h2 : ys ++ [t] = (before ++ s :: as) ++ [a] := by simpa using h
    have h3 := (List.append_inj' h2 rfl).1
    have h4 : p s = false := hy s (by rw [h3]; simp)
    rw [hs] at h4
    exact absurd h4 (by simp)

/-- C7: on a run that leaves the render loop (so `main` returns 0) the log ends
with the deletion of the vertex array, of the vertex buffer, of the index
buffer and of the program, in this order, followed by `glfwTerminate`; nothing
before them deletes a vertex array, buffer or program or terminates GLFW.  So
there are exactly four such deletions and one `glfwTerminate`, and wherever
`glfwTerminate` occurs in the log, no OpenGL call comes after it and the four
deletions come before it. -/
theorem teardown_order (env : Env) (budget : Nat)
    (hexit : (main env budget).code = some 0) :
    (∃ before, (main env budget).world.calls = before ++
        [.glDeleteVertexArrays 1 env.VAO, .glDeleteBuffers 1 env.VBO,
         .glDeleteBuffers 1 env.EBO, .glDeleteProgram env.ShaderProgram, .glfwTerminate] ∧
      ∀ c ∈ before, c.isDelete = false ∧ c.isTerminate = false) ∧
    (main env budget).world.calls.countP Call.isDelete = 4 ∧
    (main env budget).world.calls.countP Call.isTerminate = 1 ∧
    (∀ before after, (main env budget).world.calls = before ++ .glfwTerminate :: after →
      (∀ c ∈ after, c.isGL = false) ∧
      .glDeleteVertexArrays 1 env.VAO ∈ before ∧ .glDeleteBuffers 1 env.VBO ∈ before ∧
      .glDeleteBuffers 1 env.EBO ∈ before ∧ .glDeleteProgram env.ShaderProgram ∈ before) := by
  have hw : env.windowCreated = true := by
    by_contra hn
    simp [main, hn, Outcome.code] at hexit
  have hg : env.gladLoaded ≠ 0 := by
    intro hn
    simp [main, hw, hn, Outcome.code] at hexit
  obtain ⟨h1, h2, -⟩ := main_spec env budget hw hg
  have hl : (renderLoop env budget 0 (startup env)).2 = true := by
    by_contra hn
    rw [h2, if_neg hn] at hexit
    exact absurd hexit (by simp)
  rw [if_pos hl] at h1
  have hb : ∀ c ∈ startupCalls env ++ loopCalls env true budget 0 false,
      c.isDelete = false ∧ c.isTerminate = false := by
    intro c hc
    rcases List.mem_append.mp hc with h | h
    · have := startupCalls_inStartup env c h
      cases c <;> first | exact ⟨rfl, rfl⟩ | simp [Call.inStartup] at this
    · have := loopCalls_inLoop env _ _ _ _ c h
      cases c <;> first | exact ⟨rfl, rfl⟩ | simp [Call.inLoop] at this
  have hd : (startupCalls env ++ loopCalls env true budget 0 false).countP Call.isDelete = 0 := by
    rw [List.countP_eq_zero]
    intro c hc
    simp [(hb c hc).1]
  have ht : (startupCalls env ++ loopCalls env true budget 0 false).countP Call.isTerminate = 0 := by
    rw [List.countP_eq_zero]
    intro c hc
    simp [(hb c hc).2]
  refine ⟨⟨_, h1, hb⟩, ?_, ?_, ?_⟩
  · rw [h1, List.countP_append, hd]; rfl
  · rw [h1, List.countP_append, ht]; rfl
  · intro before after h
    rw [h1] at h
    have hy : ∀ c ∈ startupCalls env ++ loopCalls env true budget 0 false ++
        [.glDeleteVertexArrays 1 env.VAO, .glDeleteBuffers 1 env.VBO,
         .glDeleteBuffers 1 env.EBO, .glDeleteProgram env.ShaderProgram],
        c.isTerminate = false := by
      intro c hc
      rcases List.mem_append.mp hc with hc | hc
      · exact (hb c hc).2
      · simp only [List.mem_cons, List.mem_singleton, List.not_mem_nil, or_false] at hc
        rcases hc with rfl | rfl | rfl | rfl <;> rfl
    obtain ⟨ha, hbe⟩ := split_at_last Call.isTerminate _ .glfwTerminate hy before after
      .glfwTerminate rfl (by rw [← h]; simp [teardownCalls])
    subst ha hbe
    simp

/-- C7 at `sampleEnv`, which leaves the loop at the fourth evaluation of the
loop condition. -/
theorem teardown_order_witness :
    (main sampleEnv 4).code = some 0 ∧
    (main sampleEnv 4).world.calls.countP Call.isDelete = 4 ∧
    (main sampleEnv 4).world.calls.countP Call.isTerminate = 1 :=
  ⟨rfl, (teardown_order sampleEnv 4 rfl).2.1, (teardown_order sampleEnv 4 rfl).2.2.1⟩

/-! ## Shader diagnostics -/

theorem containsSub_iff (s t : List Char) : containsSub s t = true ↔ t <:+: s := by
  induction s with
  | nil => simp [containsSub, List.isEmpty_iff]
  | cons c cs ih =>
    rw [containsSub, Bool.or_eq_true, ih, List.infix_cons_iff, List.isPrefixOf_iff_prefix]

/-- A block free of `n` that occurs in `a ++ n :: b` occurs in `a` or in `b`. -/
theorem infix_split {α : Type} (m a b : List α) (n : α) (hn : n ∉ m)
    (h : m <:+: a ++ n :: b) : m <:+: a ∨ m <:+: b := by
  obtain ⟨s, t, hst⟩ := h
  rcases List.append_eq_append_iff.mp hst with ⟨a', ha, -⟩ | ⟨c, hc, hb⟩
  · exact Or.inl ⟨s, a', ha.symm⟩
  · rcases c with _ | ⟨x, c⟩
    · exact Or.inl ⟨s, [], by simpa using hc⟩
    · simp only [List.cons_append, List.cons.injEq] at hb
      obtain ⟨rfl, rfl⟩ := hb
      rcases List.append_eq_append_iff.mp hc with ⟨a', -, hm⟩ | ⟨d, -, hd⟩
      · exact absurd (by rw [hm]; simp) hn
      · rcases d with _ | ⟨y, d⟩
        · exact absurd (by rw [← List.nil_append m, ← hd]; simp) hn
        · simp only [List.cons_append, List.cons.injEq] at hd
          exact Or.inr ⟨d, t, by rw [hd.2]⟩

theorem stdout_append (cs ds : List Call) : stdout (cs ++ ds) = stdout cs ++ stdout ds := by
  simp [stdout, List.flatMap_append]

theorem stdout_eq_nil (env : Env) (cs : List Call)
    (h : ∀ c ∈ cs, c.inLoop = true ∨ c ∈ teardownCalls env) : stdout cs = [] := by
  rw [stdout, List.flatMap_eq_nil_iff]
  intro c hc
  rcases h c hc with h | h
  · cases c <;> first | rfl | simp [Call.inLoop] at h
  · simp only [teardownCalls, List.mem_cons, List.mem_singleton, List.not_mem_nil, or_false] at h
    rcases h with rfl | rfl | rfl | rfl | rfl <;> rfl

theorem infoLogs_append (cs ds : List Call) : infoLogs (cs ++ ds) = infoLogs cs ++ infoLogs ds := by
  simp [infoLogs, List.filterMap_append]

theorem infoLogs_eq_nil (env : Env) (cs : List Call)
    (h : ∀ c ∈ cs, c.inLoop = true ∨ c ∈ teardownCalls env) : infoLogs cs = [] := by
  rw [infoLogs, List.filterMap_eq_nil_iff]
  intro c hc
  rcases h c hc with h | h
  · cases c <;> first | rfl | simp [Call.inLoop] at h
  · simp only [teardownCalls, List.mem_cons, List.mem_singleton, List.not_mem_nil, or_false] at h
    rcases h with rfl | rfl | rfl | rfl | rfl <;> rfl

theorem stdout_startup (env : Env) :
    stdout (startupCalls env) =
      (if env.vertexCompileStatus = 0 then
        "ERROR::SHADER::VERTEX::COMPILATION_FAILED".toList ++
          '\n' :: (env.vertexInfoLog.toList ++ '\n' :: []) else []) ++
      ((if env.fragmentCompileStatus = 0 then
        "ERROR::SHADER::FRAGMENT::COMPILATION_FAILED".toList ++
          '\n' :: (env.fragmentInfoLog.toList ++ '\n' :: []) else []) ++
      ((if env.linkStatus = 0 then
        "ERROR::SHADER::PROGRAM::LINKING_FAILED".toList ++
          '\n' :: (env.programInfoLog.toList ++ '\n' :: []) else []) ++ [])) := by
  simp only [startupCalls, hintCalls, setupCalls, vertexShaderCalls, fragmentShaderCalls,
    programCalls, geometryCalls, uniformCalls, stdout_append]
  split_ifs <;> simp [stdout]

theorem infoLogs_startup (env : Env) :
    infoLogs (startupCalls env) =
      (if env.vertexCompileStatus = 0 then [env.vertexInfoLog] else []) ++
      (if env.fragmentCompileStatus = 0 then [env.fragmentInfoLog] else []) ++
      (if env.linkStatus = 0 then [env.programInfoLog] else []) := by
  simp only [startupCalls, hintCalls, setupCalls, vertexShaderCalls, fragmentShaderCalls,
    programCalls, geometryCalls, uniformCalls, infoLogs_append]
  split_ifs <;> rfl

theorem output_main (env : Env) (budget : Nat) (hw : env.windowCreated = true)
    (hg : env.gladLoaded ≠ 0) :
    stdout (main env budget).world.calls = stdout (startupCalls env) ∧
    infoLogs (main env budget).world.calls = infoLogs (startupCalls env) := by
  have hl : ∀ c ∈ loopCalls env true budget 0 false, c.inLoop = true ∨ c ∈ teardownCalls env :=
    fun c hc => Or.inl (loopCalls_inLoop env _ _ _ _ c hc)
  have ht : ∀ c ∈ (if (renderLoop env budget 0 (startup env)).2 then teardownCalls env else []),
      c.inLoop = true ∨ c ∈ teardownCalls env := by
    intro c hc
    split_ifs at hc
    · exact Or.inr hc
    · simp at hc
  rw [(main_spec env budget hw hg).1, stdout_append, stdout_append, infoLogs_append,
    infoLogs_append, stdout_eq_nil env _ hl, stdout_eq_nil env _ ht, infoLogs_eq_nil env _ hl,
    infoLogs_eq_nil env _ ht]
  simp


/-- Where a newline-free, non-empty block can sit in the output when one
diagnostic (header, newline, log, newline) is followed by `rest`. -/
theorem infix_diagnostic (m h l rest : List Char) (status : Int) (hn : '\n' ∉ m)
    (hm : m <:+: (if status = 0 then h ++ '\n' :: (l ++ '\n' :: []) else []) ++ rest) :
    (status = 0 ∧ (m <:+: h ∨ m <:+: l)) ∨ m <:+: rest := by
  by_cases hs : status = 0
  · rw [if_pos hs] at hm
    have hm2 : m <:+: h ++ '\n' :: (l ++ '\n' :: rest) := by simpa using hm
    rcases infix_split m _ _ _ hn hm2 with h1 | h1
    · exact Or.inl ⟨hs, Or.inl h1⟩
    · rcases infix_split m _ _ _ hn h1 with h2 | h2
      · exact Or.inl ⟨hs, Or.inr h2⟩
      · exact Or.inr h2
  · rw [if_neg hs] at hm
    exact Or.inr (by simpa using hm)

theorem infix_in_first {α : Type} (m h x rest : List α) (hm : m <:+: h) :
    m <:+: (h ++ x) ++ rest :=
  hm.trans ⟨[], x ++ rest, by simp⟩

theorem infix_in_later {α : Type} (m a b : List α) (hm : m <:+: b) : m <:+: a ++ b :=
  hm.trans ⟨a, [], by simp⟩

theorem mem_infoLogs_startup (env : Env) (log : String) :
    log ∈ infoLogs (startupCalls env) ↔
      (env.vertexCompileStatus = 0 ∧ log = env.vertexInfoLog) ∨
      (env.fragmentCompileStatus = 0 ∧ log = env.fragmentInfoLog) ∨
      (env.linkStatus = 0 ∧ log = env.programInfoLog) := by
  rw [infoLogs_startup]
  split_ifs <;> simp [*]

/-- C3, amended: once the window and the loader have succeeded, whatever the
two compile statuses and the link status are, `main` does not return -1 and,
given a budget of at least one loop-condition evaluation, goes on to evaluate
the loop condition (which holds) and to run the body of the first iteration.
If the vertex or the fragment compile status is `GL_FALSE`, what it prints
contains "COMPILATION_FAILED"; if the link status is `GL_FALSE`, what it prints
contains "LINKING_FAILED".  Conversely, when none of the info logs it prints
contains the marker, its output contains the marker exactly when the status
is `GL_FALSE`; the info logs it prints are those of the failed steps. -/
theorem shader_failures_logged (env : Env) (budget : Nat) (hw : env.windowCreated = true)
    (hg : env.gladLoaded ≠ 0) :
    (main env budget).code ≠ some (-1) ∧
    (∃ rest, (main env (budget + 1)).world.calls =
      startupCalls env ++ .glfwWindowShouldClose false :: bodyCalls env true 0 ++ rest) ∧
    ((env.vertexCompileStatus = GL_FALSE ∨ env.fragmentCompileStatus = GL_FALSE) →
      printsMessageWith (main env budget).world.calls "COMPILATION_FAILED" = true) ∧
    (env.linkStatus = GL_FALSE →
      printsMessageWith (main env budget).world.calls "LINKING_FAILED" = true) ∧
    ((∀ log ∈ infoLogs (main env budget).world.calls,
        containsSub log.toList "COMPILATION_FAILED".toList = false) →
      (printsMessageWith (main env budget).world.calls "COMPILATION_FAILED" = true ↔
        (env.vertexCompileStatus = GL_FALSE ∨ env.fragmentCompileStatus = GL_FALSE))) ∧
    ((∀ log ∈ infoLogs (main env budget).world.calls,
        containsSub log.toList "LINKING_FAILED".toList = false) →
      (printsMessageWith (main env budget).world.calls "LINKING_FAILED" = true ↔
        env.linkStatus = GL_FALSE)) ∧
    (∀ log, log ∈ infoLogs (main env budget).world.calls ↔
      (env.vertexCompileStatus = GL_FALSE ∧ log = env.vertexInfoLog) ∨
      (env.fragmentCompileStatus = GL_FALSE ∧ log = env.fragmentInfoLog) ∨
      (env.linkStatus = GL_FALSE ∧ log = env.programInfoLog)) := by
  obtain ⟨hout, hlogs⟩ := output_main env budget hw hg
  have hc : (env.vertexCompileStatus = GL_FALSE ∨ env.fragmentCompileStatus = GL_FALSE) →
      printsMessageWith (main env budget).world.calls "COMPILATION_FAILED" = true := by
    intro h
    unfold printsMessageWith
    rw [containsSub_iff, hout, stdout_startup]
    unfold GL_FALSE at h
    by_cases hv : env.vertexCompileStatus = 0
    · rw [if_pos hv]
      have h1 : "COMPILATION_FAILED".toList <:+: "ERROR::SHADER::VERTEX::COMPILATION_FAILED".toList :=
        (containsSub_iff _ _).mp (by decide)
      exact infix_in_first _ _ _ _ h1
    · have hf : env.fragmentCompileStatus = 0 := h.resolve_left hv
      rw [if_pos hf]
      have h1 : "COMPILATION_FAILED".toList <:+:
          "ERROR::SHADER::FRAGMENT::COMPILATION_FAILED".toList :=
        (containsSub_iff _ _).mp (by decide)
      exact infix_in_later _ _ _ (infix_in_first _ _ _ _ h1)
  have hl : env.linkStatus = GL_FALSE →
      printsMessageWith (main env budget).world.calls "LINKING_FAILED" = true := by
    intro h
    unfold printsMessageWith
    rw [containsSub_iff, hout, stdout_startup]
    unfold GL_FALSE at h
    rw [if_pos h]
    have h1 : "LINKING_FAILED".toList <:+: "ERROR::SHADER::PROGRAM::LINKING_FAILED".toList :=
      (containsSub_iff _ _).mp (by decide)
    exact infix_in_later _ _ _ (infix_in_later _ _ _ (infix_in_first _ _ _ _ h1))
  refine ⟨?_, ?_, hc, hl, ?_, ?_, ?_⟩
  · intro h
    rw [(main_spec env budget hw hg).2.1] at h
    split_ifs at h
    exact absurd (Option.some.inj h) (by decide)
  · rw [(main_spec env (budget + 1) hw hg).1]
    exact ⟨loopCalls env true budget 1 (closesIn env 0) ++
      (if (renderLoop env (budget + 1) 0 (startup env)).2 then teardownCalls env else []),
      by simp [loopCalls]⟩
  · intro hno
    refine ⟨fun hp => ?_, hc⟩
    unfold printsMessageWith at hp
    rw [containsSub_iff, hout, stdout_startup] at hp
    rw [hlogs] at hno
    have no : ∀ log ∈ infoLogs (startupCalls env), ¬ "COMPILATION_FAILED".toList <:+: log.toList := by
      intro log hlog hin
      have := hno log hlog
      rw [(containsSub_iff _ _).mpr hin] at this
      exact absurd this (by simp)
    unfold GL_FALSE
    rcases infix_diagnostic _ _ _ _ _ (by decide) hp with ⟨hv, h1⟩ | hp
    · exact Or.inl hv
    · rcases infix_diagnostic _ _ _ _ _ (by decide) hp with ⟨hf, h1⟩ | hp
      · exact Or.inr hf
      · rcases infix_diagnostic _ _ _ _ _ (by decide) hp with ⟨hls, h1 | h1⟩ | hp
        · exact absurd ((containsSub_iff _ _).mpr h1) (by decide)
        · exact absurd h1 (no _ ((mem_infoLogs_startup env _).mpr (Or.inr (Or.inr ⟨hls, rfl⟩))))
        · exact absurd (List.infix_nil.mp hp) (by decide)
  · intro hno
    refine ⟨fun hp => ?_, hl⟩
    unfold printsMessageWith at hp
    rw [containsSub_iff, hout, stdout_startup] at hp
    rw [hlogs] at hno
    have no : ∀ log ∈ infoLogs (startupCalls env), ¬ "LINKING_FAILED".toList <:+: log.toList := by
      intro log hlog hin
      have := hno log hlog
      rw [(containsSub_iff _ _).mpr hin] at this
      exact absurd this (by simp)
    unfold GL_FALSE
    rcases infix_diagnostic _ _ _ _ _ (by decide) hp with ⟨hv, h1 | h1⟩ | hp
    · exact absurd ((containsSub_iff _ _).mpr h1) (by decide)
    · exact absurd h1 (no _ ((mem_infoLogs_startup env _).mpr (Or.inl ⟨hv, rfl⟩)))
    · rcases infix_diagnostic _ _ _ _ _ (by decide) hp with ⟨hf, h1 | h1⟩ | hp
      · exact absurd ((containsSub_iff _ _).mpr h1) (by decide)
      · exact absurd h1 (no _ ((mem_infoLogs_startup env _).mpr (Or.inr (Or.inl ⟨hf, rfl⟩))))
      · rcases infix_diagnostic _ _ _ _ _ (by decide) hp with ⟨hls, -⟩ | hp
        · exact hls
        · exact absurd (List.infix_nil.mp hp) (by decide)
  · intro log
    rw [hlogs]
    exact mem_infoLogs_startup env log

/-- C3, refuted: in `logNamesLinkEnv` the link status is not `GL_FALSE`, yet the
output contains "LINKING_FAILED", through the info log of the failed vertex
shader; in `logNamesCompileEnv` neither compile status is `GL_FALSE`, yet the
output contains "COMPILATION_FAILED", through the info log of the failed link. -/
theorem marker_in_info_log :
    (printsMessageWith (main logNamesLinkEnv 4).world.calls "LINKING_FAILED" = true ∧
      logNamesLinkEnv.linkStatus ≠ GL_FALSE) ∧
    (printsMessageWith (main logNamesCompileEnv 4).world.calls "COMPILATION_FAILED" = true ∧
      logNamesCompileEnv.vertexCompileStatus ≠ GL_FALSE ∧
      logNamesCompileEnv.fragmentCompileStatus ≠ GL_FALSE) :=
  ⟨⟨rfl, by decide⟩, ⟨rfl, by decide, by decide⟩⟩

/-- C3 at `failedVertexEnv`, whose info log names neither marker: the compile
failure is printed, no link failure is, and `main` does not return -1. -/
theorem shader_failures_logged_witness :
    printsMessageWith (main failedVertexEnv 4).world.calls "COMPILATION_FAILED" = true ∧
    ¬ printsMessageWith (main failedVertexEnv 4).world.calls "LINKING_FAILED" = true ∧
    (main failedVertexEnv 4).code ≠ some (-1) :=
  ⟨(shader_failures_logged failedVertexEnv 4 rfl (by decide)).2.2.1 (Or.inl rfl),
    fun h => absurd
      (((shader_failures_logged failedVertexEnv 4 rfl (by decide)).2.2.2.2.2.1
        (by decide)).mp h) (by decide),
    (shader_failures_logged failedVertexEnv 4 rfl (by decide)).1⟩

/-! ## Uniforms -/

theorem apply_uniforms (g : GLState) (c : Call) :
    (g.apply c).uniforms = (c.uniformWritten.map (writeUniform g.uniforms)).getD g.uniforms := by
  cases c <;> simp [GLState.apply, Call.uniformWritten, GLState.setUniform, writeUniform,
    GLState.setBoundArray] <;> split_ifs <;> rfl

theorem foldl_apply_uniforms (cs : List Call) (g : GLState) :
    (cs.foldl GLState.apply g).uniforms =
      (cs.filterMap Call.uniformWritten).foldl writeUniform g.uniforms := by
  induction cs generalizing g with
  | nil => rfl
  | cons c cs ih =>
    rw [List.foldl_cons, ih, apply_uniforms]
    cases h : c.uniformWritten <;> simp [List.filterMap_cons, h]

theorem uniformWritten_startup (env : Env) :
    (startupCalls env).filterMap Call.uniformWritten =
      (uniformValues env).map (fun u => (env.uniformLocation u.1, u.2)) := by
  simp only [startupCalls, hintCalls, setupCalls, vertexShaderCalls, fragmentShaderCalls,
    programCalls, geometryCalls, uniformCalls, List.filterMap_append]
  split_ifs <;> rfl

theorem uniformWritten_inLoop (c : Call) (h : c.inLoop = true) : c.uniformWritten = none := by
  cases c <;> first | rfl | simp [Call.inLoop] at h

theorem uniformWritten_teardown (env : Env) :
    (teardownCalls env).filterMap Call.uniformWritten = [] := rfl

theorem uniformWritten_loop (env : Env) (installed : Bool) (budget i : Nat) (flag : Bool) :
    (loopCalls env installed budget i flag).filterMap Call.uniformWritten = [] := by
  rw [List.filterMap_eq_nil_iff]
  exact fun c hc => uniformWritten_inLoop c (loopCalls_inLoop env _ _ _ _ c hc)

theorem loopCheck_startup (env : Env) : ∀ c ∈ startupCalls env, c.isLoopCheck = false := by
  intro c hc
  have := startupCalls_inStartup env c hc
  cases c <;> first | rfl | simp [Call.inStartup] at this

theorem lookup_filter_ne (k j : Int) (m : List (Int × UniformValue)) :
    (m.filter (fun e => !decide (e.1 = j))).lookup k = if k = j then none else m.lookup k := by
  induction m with
  | nil => simp
  | cons e es ih =>
    obtain ⟨a, b⟩ := e
    by_cases haj : a = j
    · have hf : List.filter (fun e => !decide (e.1 = j)) ((a, b) :: es) =
          List.filter (fun e => !decide (e.1 = j)) es := by
        simp [List.filter_cons, haj]
      rw [hf, ih]
      by_cases hk : k = j
      · simp [hk]
      · have : (k == a) = false := by simpa [haj] using hk
        simp [hk, List.lookup_cons, this]
    · have hf : List.filter (fun e => !decide (e.1 = j)) ((a, b) :: es) =
          (a, b) :: List.filter (fun e => !decide (e.1 = j)) es := by
        simp [List.filter_cons, haj]
      rw [hf, List.lookup_cons, List.lookup_cons, ih]
      by_cases hk : k = a
      · subst hk
        simp [haj]
      · have : (k == a) = false := by simpa using hk
        simp [this]

theorem lookup_writeUniform (k : Int) (m : List (Int × UniformValue)) (u : Int × UniformValue) :
    (writeUniform m u).lookup k =
      if u.1 = -1 then m.lookup k else if k = u.1 then some u.2 else m.lookup k := by
  obtain ⟨a, v⟩ := u
  unfold writeUniform store
  by_cases h1 : a = -1
  · simp [h1]
  · by_cases hk : k = a
    · simp [h1, hk, List.lookup_cons]
    · have : (k == a) = false := by simpa using hk
      simp [h1, hk, List.lookup_cons, this, lookup_filter_ne]

theorem lookup_foldl_other (k : Int) (ps : List (Int × UniformValue))
    (m : List (Int × UniformValue)) (h : k ∉ ps.map Prod.fst) :
    (ps.foldl writeUniform m).lookup k = m.lookup k := by
  induction ps generalizing m with
  | nil => rfl
  | cons p ps ih =>
    simp only [List.map_cons, List.mem_cons, not_or] at h
    rw [List.foldl_cons, ih _ h.2, lookup_writeUniform]
    simp [h.1]

theorem lookup_foldl_written (ps : List (Int × UniformValue)) (m : List (Int × UniformValue))
    (hnd : (ps.map Prod.fst).Nodup) (hv : ∀ p ∈ ps, p.1 ≠ -1) :
    ∀ p ∈ ps, (ps.foldl writeUniform m).lookup p.1 = some p.2 := by
  induction ps generalizing m with
  | nil => simp
  | cons q qs ih =>
    intro p hp
    simp only [List.map_cons, List.nodup_cons] at hnd
    rw [List.foldl_cons]
    rcases List.mem_cons.mp hp with rfl | hp
    · rw [lookup_foldl_other _ _ _ hnd.1, lookup_writeUniform]
      simp [hv p (List.mem_cons_self _ _)]
    · exact ih _ hnd.2 (fun r hr => hv r (List.mem_cons_of_mem _ hr)) p hp

/-- C6: in a run past the loader, the uniform writes of the whole log are the
nine of `uniformValues`, each once, each at the location looked up for its name,
and all of them lie in the startup part of the log, which contains no
loop-condition evaluation, while the rest of the log writes no uniform.  One
iteration of the loop body, and the render loop under any budget from any
state, leave the uniform store as it was; the store at the end of the run is
the store at loop entry, which is the result of the nine writes; and when the
nine locations are distinct and valid, every uniform holds its startup value. -/
theorem uniforms_set_once (env : Env) (budget : Nat) (hw : env.windowCreated = true)
    (hg : env.gladLoaded ≠ 0) :
    (main env budget).world.calls.filterMap Call.uniformWritten =
      (uniformValues env).map (fun u => (env.uniformLocation u.1, u.2)) ∧
    (∃ rest, (main env budget).world.calls = startupCalls env ++ rest ∧
      (∀ c ∈ rest, c.uniformWritten = none) ∧
      (∀ c ∈ startupCalls env, c.isLoopCheck = false)) ∧
    (∀ i (w : World), (loopBody env i w).gl.uniforms = w.gl.uniforms) ∧
    (∀ b i (w : World), (renderLoop env b i w).1.gl.uniforms = w.gl.uniforms) ∧
    (main env budget).world.gl.uniforms = (startup env).gl.uniforms ∧
    (startup env).gl.uniforms =
      ((uniformValues env).map (fun u => (env.uniformLocation u.1, u.2))).foldl writeUniform [] ∧
    ((uniformNames.map env.uniformLocation).Nodup →
      (∀ name ∈ uniformNames, env.uniformLocation name ≠ -1) →
      ∀ u ∈ uniformValues env,
        (main env budget).world.gl.uniforms.lookup (env.uniformLocation u.1) = some u.2) := by
  obtain ⟨h1, -, h3⟩ := main_spec env budget hw hg
  have hrest : (if (renderLoop env budget 0 (startup env)).2 then teardownCalls env
      else []).filterMap Call.uniformWritten = [] := by
    split_ifs <;> rfl
  have ha : (main env budget).world.calls.filterMap Call.uniformWritten =
      (uniformValues env).map (fun u => (env.uniformLocation u.1, u.2)) := by
    rw [h1, List.filterMap_append, List.filterMap_append, uniformWritten_startup,
      uniformWritten_loop, hrest]
    simp
  have hs : (startup env).gl.uniforms =
      ((uniformValues env).map (fun u => (env.uniformLocation u.1, u.2))).foldl
        writeUniform [] := by
    rw [startup_gl, replay, foldl_apply_uniforms, uniformWritten_startup]; rfl
  have hm : (main env budget).world.gl.uniforms =
      ((uniformValues env).map (fun u => (env.uniformLocation u.1, u.2))).foldl
        writeUniform [] := by
    rw [h3, replay, foldl_apply_uniforms, ha]; rfl
  refine ⟨ha, ⟨_, by rw [h1, List.append_assoc], ?_, loopCheck_startup env⟩, ?_, ?_,
    hm.trans hs.symm, hs, ?_⟩
  · intro c hc
    rcases List.mem_append.mp hc with hc | hc
    · exact uniformWritten_inLoop c (loopCalls_inLoop env _ _ _ _ c hc)
    · have := List.filterMap_eq_nil_iff.mp hrest c hc
      exact this
  · intro i w
    rw [(loopBody_spec env i w).2.1, foldl_apply_uniforms,
      List.filterMap_eq_nil_iff.mpr
        (fun c hc => uniformWritten_inLoop c (bodyCalls_inLoop env _ _ c hc))]
    rfl
  · intro b i w
    rw [(renderLoop_spec env b i w).2.1, foldl_apply_uniforms, uniformWritten_loop]
    rfl
  · intro hnd hvalid u hu
    rw [hm]
    refine lookup_foldl_written _ [] (by simpa [uniformValues, uniformNames] using hnd) ?_
      (env.uniformLocation u.1, u.2) (List.mem_map.mpr ⟨u, hu, rfl⟩)
    intro p hp
    obtain ⟨v, hv, rfl⟩ := List.mem_map.mp hp
    refine hvalid v.1 ?_
    simp only [uniformValues, List.mem_cons, List.mem_singleton, List.not_mem_nil,
      or_false] at hv
    rcases hv with rfl | rfl | rfl | rfl | rfl | rfl | rfl | rfl | rfl <;> simp [uniformNames]

/-- C6 at `sampleEnv`: after the run the projection and the shininess are the
values written at startup. -/
theorem uniforms_set_once_witness :
    (main sampleEnv 4).world.gl.uniforms.lookup (sampleEnv.uniformLocation "Projection") =
      some (.mat4 sampleEnv.Projection) ∧
    (main sampleEnv 4).world.gl.uniforms.lookup (sampleEnv.uniformLocation "Shininess") =
      some (.float 100.0) :=
  ⟨(uniforms_set_once sampleEnv 4 rfl (by decide)).2.2.2.2.2.2 (by decide) (by decide)
      ("Projection", .mat4 sampleEnv.Projection) (by simp [uniformValues]),
    (uniforms_set_once sampleEnv 4 rfl (by decide)).2.2.2.2.2.2 (by decide) (by decide)
      ("Shininess", .float 100.0) (by simp [uniformValues])⟩

/-! ## Geometry and attribute layout -/

theorem ready_boundArray (env : Env) (g : GLState) (hr : GeometryReady env g)
    (hb : g.vertexArray = env.VAO) : g.boundArray = geometryArray env := by
  simp [GLState.boundArray, hb, hr.2.2]

theorem ready_fetch (env : Env) (g : GLState) (hr : GeometryReady env g)
    (index size stride offset v : Nat) :
    g.fetch ⟨index, size, .GL_FLOAT, false, stride, offset, env.VBO⟩ v =
      if (offset + v * stride) % sizeofFloat = 0 ∧
          (offset + v * stride) / sizeofFloat + size ≤ Vertices.length then
        some ((Vertices.drop ((offset + v * stride) / sizeofFloat)).take size)
      else none := by
  simp [GLState.fetch, hr.1, VertexAttrib.byteOffset]

theorem ready_elements (env : Env) (g : GLState) (hr : GeometryReady env g)
    (hb : g.vertexArray = env.VAO) :
    g.elements drawCount .GL_UNSIGNED_INT 0 = some Indices := by
  simp only [GLState.elements, ready_boundArray env g hr hb, geometryArray, hr.2.1]
  rfl

theorem ready_attributeAt (env : Env) (g : GLState) (hr : GeometryReady env g)
    (hb : g.vertexArray = env.VAO) (v : Nat) (hv : v < 4) :
    g.attributeAt 0 v = (quad.get? v).map VertexInputs.vPos ∧
    g.attributeAt 1 v = (quad.get? v).map VertexInputs.vColor ∧
    g.attributeAt 2 v = (quad.get? v).map VertexInputs.vNormal := by
  simp only [GLState.attributeAt, ready_boundArray env g hr hb, geometryArray]
  interval_cases v <;> simp [ready_fetch env g hr] <;> exact ⟨rfl, rfl, rfl⟩

theorem ready_vertexInputs (env : Env) (g : GLState) (hr : GeometryReady env g)
    (hb : g.vertexArray = env.VAO) (v : Nat) (hv : v < 4) :
    g.vertexInputs v = quad.get? v := by
  obtain ⟨h0, h1, h2⟩ := ready_attributeAt env g hr hb v hv
  simp only [GLState.vertexInputs, h0, h1, h2]
  interval_cases v <;> rfl

theorem ready_vertexInputs_beyond (env : Env) (g : GLState) (hr : GeometryReady env g)
    (hb : g.vertexArray = env.VAO) : g.vertexInputs 4 = none := by
  have h0 : g.attributeAt 0 4 = none := by
    simp only [GLState.attributeAt, ready_boundArray env g hr hb, geometryArray]
    simp [ready_fetch env g hr]
    intro _ h
    exact absurd h (by decide)
  simp only [GLState.vertexInputs, h0]

theorem ready_draw (env : Env) (g : GLState) (hr : GeometryReady env g)
    (hb : g.vertexArray = env.VAO) :
    g.drawElements drawCount .GL_UNSIGNED_INT 0 = some quadVertices := by
  simp only [GLState.drawElements, ready_elements env g hr hb, Option.some_bind, Indices,
    List.map_cons, List.map_nil]
  rw [ready_vertexInputs env g hr hb 0 (by decide), ready_vertexInputs env g hr hb 1 (by decide),
    ready_vertexInputs env g hr hb 2 (by decide), ready_vertexInputs env g hr hb 3 (by decide)]
  rfl

theorem apply_inLoop_geometry (g : GLState) (c : Call) (h : c.inLoop = true) :
    (g.apply c).buffers = g.buffers ∧ (g.apply c).vertexArrays = g.vertexArrays := by
  cases c <;> first | exact ⟨rfl, rfl⟩ | simp [Call.inLoop] at h

theorem ready_apply_inLoop (env : Env) (g : GLState) (c : Call) (h : c.inLoop = true)
    (hr : GeometryReady env g) : GeometryReady env (g.apply c) := by
  obtain ⟨h1, h2⟩ := apply_inLoop_geometry g c h
  unfold GeometryReady
  rw [h1, h2]
  exact hr

theorem ready_foldl_inLoop (env : Env) (cs : List Call) (g : GLState)
    (h : ∀ c ∈ cs, c.inLoop = true) (hr : GeometryReady env g) :
    GeometryReady env (cs.foldl GLState.apply g) := by
  induction cs generalizing g with
  | nil => exact hr
  | cons c cs ih =>
    exact ih _ (fun d hd => h d (List.mem_cons_of_mem _ hd))
      (ready_apply_inLoop env g c (h c (List.mem_cons_self _ _)) hr)


theorem setUniform_geometry (g : GLState) (location : Int) (v : UniformValue) :
    (g.setUniform location v).buffers = g.buffers ∧
    (g.setUniform location v).vertexArrays = g.vertexArrays := by
  unfold GLState.setUniform
  split_ifs <;> exact ⟨rfl, rfl⟩

theorem foldl_uniformCalls_geometry (env : Env) (g : GLState) :
    ((uniformCalls env).foldl GLState.apply g).buffers = g.buffers ∧
    ((uniformCalls env).foldl GLState.apply g).vertexArrays = g.vertexArrays := by
  simp [uniformCalls, GLState.apply, setUniform_geometry]

theorem foldl_hintCalls (env : Env) (g : GLState) :
    (hintCalls env).foldl GLState.apply g = g := by
  simp only [hintCalls]
  split_ifs <;> rfl

theorem foldl_vertexShaderCalls (env : Env) (g : GLState) :
    (vertexShaderCalls env).foldl GLState.apply g = g := by
  simp only [vertexShaderCalls]
  split_ifs <;> rfl

theorem foldl_fragmentShaderCalls (env : Env) (g : GLState) :
    (fragmentShaderCalls env).foldl GLState.apply g = g := by
  simp only [fragmentShaderCalls]
  split_ifs <;> rfl

theorem foldl_programCalls (env : Env) (g : GLState) :
    (programCalls env).foldl GLState.apply g = g := by
  simp only [programCalls]
  split_ifs <;> rfl

theorem geometry_from_initial (env : Env) (hVAO : env.VAO ≠ 0) (hVBO : env.VBO ≠ 0)
    (hEBO : env.EBO ≠ 0) (hne : env.VBO ≠ env.EBO) :
    GeometryReady env ((geometryCalls env).foldl GLState.apply World.initial.gl) := by
  simp only [geometryCalls, List.foldl_cons, List.foldl_nil]
  unfold GeometryReady
  have hb : (env.VBO == env.EBO) = false := by simpa using hne
  simp [GLState.apply, GLState.setBoundArray, GLState.boundArray, store, World.initial, hVAO, hVBO,
    hEBO, hne, hb, List.lookup_cons, geometryArray, BufferData.take]
  exact ⟨by decide, by decide⟩

theorem startup_ready (env : Env) (hVAO : env.VAO ≠ 0) (hVBO : env.VBO ≠ 0)
    (hEBO : env.EBO ≠ 0) (hne : env.VBO ≠ env.EBO) :
    GeometryReady env (replay (startupCalls env)) := by
  have hu := foldl_uniformCalls_geometry env
    ((geometryCalls env).foldl GLState.apply World.initial.gl)
  have hgeo := geometry_from_initial env hVAO hVBO hEBO hne
  have hpre : replay (startupCalls env) = (uniformCalls env).foldl GLState.apply
      ((geometryCalls env).foldl GLState.apply World.initial.gl) := by
    simp only [replay, startupCalls, setupCalls, List.foldl_append, foldl_hintCalls,
      foldl_vertexShaderCalls, foldl_fragmentShaderCalls, foldl_programCalls, List.foldl_cons,
      List.foldl_nil, GLState.apply]
  rw [hpre]
  unfold GeometryReady at hgeo ⊢
  rw [hu.1, hu.2]
  exact hgeo

theorem drawsOf_append (cs ds : List Call) (g : GLState) :
    drawsOf (cs ++ ds) g = drawsOf cs g ++ drawsOf ds (cs.foldl GLState.apply g) := by
  induction cs generalizing g with
  | nil => rfl
  | cons c cs ih => cases c <;> simp [drawsOf, ih]

theorem drawsOf_eq_nil (cs : List Call) (g : GLState)
    (h : ∀ c ∈ cs, ∀ mode count type offset, c ≠ .glDrawElements mode count type offset) :
    drawsOf cs g = [] := by
  induction cs generalizing g with
  | nil => rfl
  | cons c cs ih =>
    have hc := h c (List.mem_cons_self _ _)
    have ht := fun d hd => h d (List.mem_cons_of_mem _ hd)
    cases c <;> first
      | exact absurd rfl (hc _ _ _ _)
      | (simp only [drawsOf]; exact ih _ ht)

theorem drawsOf_drawCalls (env : Env) (g : GLState) (hr : GeometryReady env g) :
    drawsOf (drawCalls env) g = [some quadVertices] := by
  have h1 := ready_apply_inLoop env g
    (.glClearColor ClearColor.x ClearColor.y ClearColor.z ClearColor.w) rfl hr
  have h2 := ready_apply_inLoop env _ (.glClear .GL_COLOR_BUFFER_BIT) rfl h1
  have h3 := ready_apply_inLoop env _ (.glUseProgram env.ShaderProgram) rfl h2
  have h4 := ready_apply_inLoop env _ (.glBindVertexArray env.VAO) rfl h3
  simp only [drawCalls, drawsOf]
  rw [ready_draw env _ h4 rfl]

theorem drawsOf_bodyCalls (env : Env) (installed : Bool) (i : Nat) (g : GLState)
    (hr : GeometryReady env g) :
    drawsOf (bodyCalls env installed i) g = [some quadVertices] := by
  have hx : ∀ c ∈ Call.glfwGetKey .GLFW_KEY_ESCAPE (env.escapeKey i) ::
      (if env.escapeKey i = GLFW_TRUE then [Call.glfwSetWindowShouldClose true] else []),
      c.inLoop = true := by
    intro c hc
    split_ifs at hc <;> simp at hc
    · rcases hc with rfl | rfl <;> rfl
    · subst hc; rfl
  have hy : ∀ c ∈ Call.glfwPollEvents :: callbackCalls installed (env.events i),
      c.inLoop = true := by
    intro c hc
    rcases List.mem_cons.mp hc with rfl | hc
    · rfl
    · exact callbackCalls_inLoop _ _ c hc
  have hxd : drawsOf (Call.glfwGetKey .GLFW_KEY_ESCAPE (env.escapeKey i) ::
      (if env.escapeKey i = GLFW_TRUE then [Call.glfwSetWindowShouldClose true] else [])) g
      = [] := by
    split_ifs <;> rfl
  have hyd : ∀ g, drawsOf (Call.glfwPollEvents :: callbackCalls installed (env.events i)) g
      = [] := by
    intro g
    refine drawsOf_eq_nil _ g (fun c hc => ?_)
    have := hy c hc
    intro mode count type offset he
    subst he
    rcases List.mem_cons.mp hc with hc | hc
    · exact absurd hc (by simp)
    · simp only [callbackCalls, List.mem_filterMap] at hc
      obtain ⟨e, -, he⟩ := hc
      cases e with
      | closeRequested => simp at he
      | framebufferSize width height => cases installed <;> simp at he
  unfold bodyCalls
  rw [drawsOf_append, drawsOf_append, hxd, hyd,
    drawsOf_drawCalls env _ (ready_foldl_inLoop env _ g hx hr)]
  rfl

theorem drawsOf_loopCalls (env : Env) (installed : Bool) (budget i : Nat) (flag : Bool)
    (g : GLState) (hr : GeometryReady env g) :
    ∀ d ∈ drawsOf (loopCalls env installed budget i flag) g, d = some quadVertices := by
  induction budget generalizing i flag g with
  | zero => simp [loopCalls, drawsOf]
  | succ b ih =>
    cases flag with
    | true => simp [loopCalls, drawsOf]
    | false =>
      intro d hd
      have hsplit : loopCalls env installed (b + 1) i false =
          (Call.glfwWindowShouldClose false :: bodyCalls env installed i) ++
            loopCalls env installed b (i + 1) (closesIn env i) := rfl
      rw [hsplit, drawsOf_append] at hd
      rcases List.mem_append.mp hd with hd | hd
      · have : drawsOf (Call.glfwWindowShouldClose false :: bodyCalls env installed i) g =
            [some quadVertices] := drawsOf_bodyCalls env installed i g hr
        rw [this] at hd
        exact List.mem_singleton.mp hd
      · refine ih _ _ _ (ready_foldl_inLoop env _ g ?_ hr) d hd
        intro c hc
        rcases List.mem_cons.mp hc with rfl | hc
        · rfl
        · exact bodyCalls_inLoop env installed i c hc

theorem drawsOf_main (env : Env) (budget : Nat) (hw : env.windowCreated = true)
    (hg : env.gladLoaded ≠ 0) (hVAO : env.VAO ≠ 0) (hVBO : env.VBO ≠ 0)
    (hEBO : env.EBO ≠ 0) (hne : env.VBO ≠ env.EBO) :
    (∀ d ∈ drawsOf (main env budget).world.calls World.initial.gl, d = some quadVertices) ∧
    some quadVertices ∈ drawsOf (main env (budget + 1)).world.calls World.initial.gl := by
  have hs : drawsOf (startupCalls env) World.initial.gl = [] :=
    drawsOf_eq_nil _ _ (fun c hc mode count type offset he => by
      have := startupCalls_inStartup env c hc
      subst he
      simp [Call.inStartup] at this)
  have hready := startup_ready env hVAO hVBO hEBO hne
  constructor
  · intro d hd
    rw [(main_spec env budget hw hg).1, drawsOf_append, drawsOf_append, hs] at hd
    rcases List.mem_append.mp hd with hd | hd
    · exact drawsOf_loopCalls env true budget 0 false _ hready d (by simpa using hd)
    · rw [drawsOf_eq_nil] at hd
      · simp at hd
      · intro c hc mode count type offset he
        subst he
        split_ifs at hc <;> simp [teardownCalls] at hc
  · rw [(main_spec env (budget + 1) hw hg).1, drawsOf_append, drawsOf_append, hs]
    have hsplit : loopCalls env true (budget + 1) 0 false =
        (Call.glfwWindowShouldClose false :: bodyCalls env true 0) ++
          loopCalls env true budget 1 (closesIn env 0) := rfl
    have hb : drawsOf (Call.glfwWindowShouldClose false :: bodyCalls env true 0)
        (replay (startupCalls env)) = [some quadVertices] :=
      drawsOf_bodyCalls env true 0 _ hready
    rw [hsplit, drawsOf_append, show List.foldl GLState.apply World.initial.gl (startupCalls env)
      = replay (startupCalls env) from rfl, hb]
    simp


theorem source_declares_inputs :
    containsSub VertexShaderSource.toList "layout (location = 0) in vec3 vPos;".toList = true ∧
    containsSub VertexShaderSource.toList "layout (location = 1) in vec3 vColor;".toList = true ∧
    containsSub VertexShaderSource.toList "layout (location = 2) in vec3 vNormal;".toList = true := by
  decide

/-- C9: in a run past the loader in which `glGenVertexArrays` and `glGenBuffers`
return names that are not zero and the two buffer names differ, the state in
which the render loop is entered has `Vertices`, 4 x 9 = 36 floats, as the data
store of the vertex buffer, `Indices`, 6 indices all less than 4, as the data
store of the index buffer, and a vertex array object with that index buffer
attached and the three attribute arrays 0, 1, 2 enabled and reading from the
vertex buffer.  Every `glDrawElements` call of the run, replayed on the state
the log produces, feeds the vertex shader the six vertices of the quad in the
order of `Indices`, and a run with a budget of at least one loop-condition
evaluation has such a call.  In any state with this geometry in place and the
vertex array bound, the draw reads exactly the 6 stored indices; for every
vertex `v < 4` the fetch of attribute array `a` starts at float `9 * v + 3 * a`
of the stored buffer, stays inside it and returns the three floats there; the
inputs of the vertex shader are the position, colour and normal of row `v`, at
the locations 0, 1, 2 the shader source declares for `vPos`, `vColor`,
`vNormal`; a fifth vertex would leave the buffer. -/
theorem geometry_layout (env : Env) (budget : Nat) (hw : env.windowCreated = true)
    (hg : env.gladLoaded ≠ 0) (hVAO : env.VAO ≠ 0) (hVBO : env.VBO ≠ 0)
    (hEBO : env.EBO ≠ 0) (hne : env.VBO ≠ env.EBO) :
    (startup env).gl.buffers.lookup env.VBO = some (.floats Vertices) ∧
    Vertices.length = 4 * 9 ∧ Vertices.length = 36 ∧
    (startup env).gl.buffers.lookup env.EBO = some (.uints Indices) ∧
    Indices.length = 6 ∧ drawCount = Indices.length ∧ (∀ i ∈ Indices, i < 4) ∧
    (startup env).gl.vertexArrays.lookup env.VAO = some (geometryArray env) ∧
    (∀ d ∈ drawsOf (main env budget).world.calls World.initial.gl, d = some quadVertices) ∧
    some quadVertices ∈ drawsOf (main env (budget + 1)).world.calls World.initial.gl ∧
    Indices.map quad.get? = quadVertices.map some ∧
    (∀ g : GLState, GeometryReady env g → g.vertexArray = env.VAO →
      g.elements drawCount .GL_UNSIGNED_INT 0 = some Indices ∧
      g.drawElements drawCount .GL_UNSIGNED_INT 0 = some quadVertices ∧
      (∀ a ∈ g.boundArray.attribs, ∀ v, v < 4 →
        a.index < 3 ∧ a.size = 3 ∧ a.byteOffset v = sizeofFloat * (9 * v + 3 * a.index) ∧
        a.byteOffset v / sizeofFloat + a.size ≤ Vertices.length ∧
        g.fetch a v = some ((Vertices.drop (9 * v + 3 * a.index)).take 3)) ∧
      (∀ v, v < 4 →
        g.vertexInputs v = quad.get? v ∧
        g.attributeAt 0 v = some (position v) ∧
        g.attributeAt 2 v = some (normal v)) ∧
      g.vertexInputs 4 = none) ∧
    VertexShaderInputs = [(0, "vPos"), (1, "vColor"), (2, "vNormal")] ∧
    containsSub VertexShaderSource.toList "layout (location = 0) in vec3 vPos;".toList = true ∧
    containsSub VertexShaderSource.toList "layout (location = 1) in vec3 vColor;".toList = true ∧
    containsSub VertexShaderSource.toList "layout (location = 2) in vec3 vNormal;".toList = true := by
  have hready : GeometryReady env (startup env).gl := by
    rw [startup_gl]
    exact startup_ready env hVAO hVBO hEBO hne
  obtain ⟨hd1, hd2⟩ := drawsOf_main env budget hw hg hVAO hVBO hEBO hne
  refine ⟨hready.1, rfl, rfl, hready.2.1, rfl, rfl, by decide, hready.2.2, hd1, hd2, rfl, ?_, rfl,
    source_declares_inputs⟩
  intro g hr hb
  refine ⟨ready_elements env g hr hb, ready_draw env g hr hb, ?_, ?_,
    ready_vertexInputs_beyond env g hr hb⟩
  · intro a ha v hv
    rw [ready_boundArray env g hr hb] at ha
    simp only [geometryArray, List.mem_cons, List.mem_singleton, List.not_mem_nil, or_false] at ha
    rcases ha with rfl | rfl | rfl <;> rw [ready_fetch env g hr] <;> interval_cases v <;>
      exact ⟨Nat.le_of_ble_eq_true rfl, rfl, rfl,
        by simp [VertexAttrib.byteOffset, sizeofFloat, Vertices], rfl⟩
  · intro v hv
    obtain ⟨h0, -, h2⟩ := ready_attributeAt env g hr hb v hv
    refine ⟨ready_vertexInputs env g hr hb v hv, ?_, ?_⟩
    · rw [h0]; interval_cases v <;> rfl
    · rw [h2]; interval_cases v <;> rfl

/-- C9 at `sampleEnv` (vertex array 1, vertex buffer 1, index buffer 2). -/
theorem geometry_layout_witness :
    (startup sampleEnv).gl.buffers.lookup sampleEnv.VBO = some (.floats Vertices) ∧
    some quadVertices ∈ drawsOf (main sampleEnv 4).world.calls World.initial.gl :=
  ⟨(geometry_layout sampleEnv 3 rfl (by decide) (by decide) (by decide) (by decide)
      (by decide)).1,
    (geometry_layout sampleEnv 3 rfl (by decide) (by decide) (by decide) (by decide)
      (by decide)).2.2.2.2.2.2.2.2.2.1⟩

/-! ## Winding and face culling -/


theorem apply_enabled (g : GLState) (c : Call) (h : c.isEnable = false) :
    (g.apply c).enabled = g.enabled := by
  cases c with
  | glEnable cap => simp [Call.isEnable] at h
  | _ =>
    first
      | rfl
      | (simp only [GLState.apply, GLState.setUniform, GLState.setBoundArray]
         split_ifs <;> rfl)

theorem foldl_apply_enabled (cs : List Call) (g : GLState) (h : ∀ c ∈ cs, c.isEnable = false) :
    (cs.foldl GLState.apply g).enabled = g.enabled := by
  induction cs generalizing g with
  | nil => rfl
  | cons c cs ih =>
    rw [List.foldl_cons, ih _ (fun d hd => h d (List.mem_cons_of_mem _ hd)),
      apply_enabled g c (h c (List.mem_cons_self _ _))]

theorem main_never_enables (env : Env) (budget : Nat) :
    ∀ c ∈ (main env budget).world.calls, c.isEnable = false := by
  intro c hc
  rcases main_calls_cases env budget c hc with h | h | h
  · cases c <;> first | rfl | simp [Call.inStartup] at h
  · cases c <;> first | rfl | simp [Call.inLoop] at h
  · simp only [teardownCalls, List.mem_cons, List.mem_singleton, List.not_mem_nil, or_false] at h
    rcases h with rfl | rfl | rfl | rfl | rfl <;> rfl

theorem area_first : indexTriangleArea (0, 1, 2) = -0.5 := by
  simp only [indexTriangleArea, signedArea, position_zero, position_one, position_two]
  norm_num

theorem area_second : indexTriangleArea (0, 3, 2) = 0.5 := by
  simp only [indexTriangleArea, signedArea, position_zero, position_three, position_two]
  norm_num

/-- C10: the signed area in the xy-plane of the triangle of indices (0,1,2) is
-0.5 (clockwise seen from +z) and that of (0,3,2) is +0.5 (counter-clockwise);
every vertex normal is (0,0,1), and the normal the winding gives points against
it for the first triangle and along it for the second.  No run of `main` issues
`glEnable`, so at every point of a run no capability is enabled and a draw of
`Indices` draws both triangles; with `GL_CULL_FACE` enabled it would draw the
second one only. -/
theorem winding_and_culling (env : Env) (budget : Nat) :
    assembleTriangles Indices = [(0, 1, 2), (0, 3, 2)] ∧
    indexTriangleArea (0, 1, 2) = -0.5 ∧
    indexTriangleArea (0, 3, 2) = 0.5 ∧
    (∀ v, v < 4 → normal v = ⟨0.0, 0.0, 1.0⟩) ∧
    (∀ v, v < 4 → Vec3.dot (windingNormal (0, 1, 2)) (normal v) < 0 ∧
      0 < Vec3.dot (windingNormal (0, 3, 2)) (normal v)) ∧
    (∀ c ∈ (main env budget).world.calls, c.isEnable = false) ∧
    (∀ issued, issued <+: (main env budget).world.calls →
      (replay issued).enabled = [] ∧
      drawnTriangles (replay issued) Indices = [(0, 1, 2), (0, 3, 2)]) ∧
    (∀ g : GLState, GLenum.GL_CULL_FACE ∈ g.enabled → drawnTriangles g Indices = [(0, 3, 2)]) := by
  have hn : ∀ v, v < 4 → normal v = ⟨0.0, 0.0, 1.0⟩ := by
    intro v hv
    interval_cases v <;> rfl
  refine ⟨rfl, area_first, area_second, hn, ?_, main_never_enables env budget, ?_, ?_⟩
  · intro v hv
    rw [hn v hv]
    simp only [windingNormal, position_zero, position_one, position_two, position_three,
      Vec3.cross, Vec3.sub, Vec3.dot]
    constructor <;> norm_num
  · intro issued hi
    have he : (replay issued).enabled = [] :=
      foldl_apply_enabled issued _
        (fun c hc => main_never_enables env budget c (hi.subset hc))
    refine ⟨he, ?_⟩
    simp [drawnTriangles, he, Indices, assembleTriangles]
  · intro g hg
    have h1 : ¬ (0 : ℚ) < indexTriangleArea (0, 1, 2) := by rw [area_first]; norm_num
    have h2 : (0 : ℚ) < indexTriangleArea (0, 3, 2) := by rw [area_second]; norm_num
    simp [drawnTriangles, Indices, assembleTriangles, List.filter_cons, hg, h1, h2]

/-! ## The shader pair -/

/-- C8, refuted: at vertex 0 of the quad, under the transforms of `main`, the
colour the vertex stage outputs is not the lit colour the fragment stage
computes from the outputs of that vertex: not with the light switched off,
whatever the built-in functions return, and not with the lighting uniforms of
`main`, whenever `inverse` and `normalize` are exact on the identity matrix and
on the unit vector (0,0,1) and `pow` is not negative. -/
theorem per_vertex_lighting_refuted :
    (¬ ∃ b : Builtins,
      (vertexMain b sampleTransforms vertex0).2.Color =
        vec3 (fragmentMain b lightOff (vertexMain b sampleTransforms vertex0).2)) ∧
    (¬ ∃ b : Builtins,
      b.inverse (Mat4.diag 1.0) = Mat4.diag 1.0 ∧
      b.normalize ⟨0.0, 0.0, 1.0⟩ = ⟨0.0, 0.0, 1.0⟩ ∧
      (∀ x y, 0 ≤ b.pow x y) ∧
      (vertexMain b sampleTransforms vertex0).2.Color =
        vec3 (fragmentMain b programLighting (vertexMain b sampleTransforms vertex0).2)) := by
  constructor
  · rintro ⟨b, h⟩
    have hx := congrArg Vec3.x h
    simp only [vertexMain, fragmentMain, DiffuseColor, SpecularColor, AmbientColor, vec3, vec4,
      Vec3.mul, Vec3.add, Vec3.smul, lightOff, vertex0] at hx
    norm_num at hx
  · rintro ⟨b, hi, hn, hp, h⟩
    have hN : (mat3 (Mat4.transpose (Mat4.diag 1.0))).mulVec (⟨0.0, 0.0, 1.0⟩ : Vec3) =
        ⟨0.0, 0.0, 1.0⟩ := by
      simp only [mat3, Mat4.transpose, Mat4.diag, Mat3.mulVec, vec3, Vec3.add, Vec3.smul]
      norm_num
    have hx := congrArg Vec3.x h
    simp only [vertexMain, fragmentMain, DiffuseColor, SpecularColor, AmbientColor, vec3, vec4,
      Vec3.mul, Vec3.add, Vec3.smul, programLighting, vertex0, sampleTransforms, hi, hN, hn,
      Vec3.dot] at hx
    have hs := hp (max (Vec3.dot (b.normalize (Vec3.sub ⟨0.0, 0.0, 0.0⟩
      (vec3 ((Mat4.diag 1.0).mulVec (vec4 ⟨0.5, 0.5, -3.0⟩ 1.0)))))
      (reflect (Vec3.neg ⟨0.0, 0.0, 1.0⟩) ⟨0.0, 0.0, 1.0⟩)) 0.0) 100.0
    simp only [vec3, vec4, Vec3.dot] at hs
    generalize b.pow _ _ = s at hx hs
    norm_num at hx
    linarith

/-- C8, amended: the lighting is per fragment.  The vertex stage outputs the
vertex colour unchanged, the position transformed by `Model`, the normal
transformed by the inverse transpose of `Model`, and `gl_Position`; the fragment
stage outputs the sum of the diffuse, specular and ambient terms times the
interpolated colour, with alpha 1.  The diffuse and specular terms do not read
the interpolated colour, and the colour the vertex stage outputs does not read
the normal. -/
theorem per_fragment_lighting (b : Builtins) (u : VertexUniforms) (fu : FragmentUniforms)
    (i : VertexInputs) (v : Varyings) :
    (vertexMain b u i).2.Color = i.vColor ∧
    (vertexMain b u i).2.FragPos = vec3 (u.Model.mulVec (vec4 i.vPos 1.0)) ∧
    (vertexMain b u i).2.Normal = (mat3 (Mat4.transpose (b.inverse u.Model))).mulVec i.vNormal ∧
    (vertexMain b u i).1 =
      (u.Projection.mul u.View).mulVec (vec4 (vertexMain b u i).2.FragPos 1.0) ∧
    fragmentMain b fu v =
      vec4 (Vec3.mul (Vec3.add (Vec3.add (DiffuseColor b fu v) (SpecularColor b fu v))
        (AmbientColor fu)) v.Color) 1.0 ∧
    (∀ c : Vec3, DiffuseColor b fu { v with Color := c } = DiffuseColor b fu v ∧
      SpecularColor b fu { v with Color := c } = SpecularColor b fu v) ∧
    (∀ n : Vec3, (vertexMain b u { i with vNormal := n }).2.Color = (vertexMain b u i).2.Color) :=
  ⟨rfl, rfl, rfl, rfl, rfl, fun _ => ⟨rfl, rfl⟩, fun _ => rfl⟩

end LearnOpenGL
